import Mathlib

/-!
# manim_online front end: generation page, poll scheduler, session and request client

A shallow embedding of `manim_fronted/src/pages/Home.jsx`, and further down of
`manim_fronted/src/contexts/AuthContext.jsx` and `manim_fronted/src/services/api.js`.
The conventions for `Home.jsx`:

* JavaScript strings are sequences of UTF-16 code units (`JSString`).
* A React state setter `setX(v)` is an `Effect`; the state after a handler is the
  state before it with the handler's setter calls applied in order.
* A network call is an `Effect` too, so the log of a handler shows which calls it
  made and in which order.  The answer of the backend is an argument of the handler:
  a call either resolves with a job record of the backend's interface or is rejected
  with an error value.
* `Date.now()` is an integer number of milliseconds, an argument of each poll round.
* `attempts` is a natural number; `Math.floor(attempts / 10)` is its division by 10.
* `console.error` calls are not modelled.
-/

namespace ManimOnline

/-! ## Strings -/

/-- A JavaScript string, as its sequence of UTF-16 code units. -/
abbrev JSString := List Nat

/-- The code units of a source literal.  Every literal of the program lies in the
Basic Multilingual Plane, where a character is one code unit. -/
def lit (s : String) : JSString := s.data.map Char.toNat

/-- The characters `String.prototype.trim` strips: ECMAScript WhiteSpace and
LineTerminator code points (all of them are single code units). -/
def isWhiteSpace (c : Nat) : Bool :=
  c = 0x09 || c = 0x0A || c = 0x0B || c = 0x0C || c = 0x0D || c = 0x20 ||
  c = 0xA0 || c = 0x1680 || (0x2000 ≤ c && c ≤ 0x200A) || c = 0x2028 ||
  c = 0x2029 || c = 0x202F || c = 0x205F || c = 0x3000 || c = 0xFEFF

/-- `s.trim()`: leading and trailing white space removed. -/
def trim (s : JSString) : JSString :=
  ((s.dropWhile isWhiteSpace).reverse.dropWhile isWhiteSpace).reverse

/-- `s.substring(0, n)`: the first `n` code units of `s`. -/
def substring0 (s : JSString) (n : Nat) : JSString := s.take n

/-- The JavaScript expression `v || d` for an optional string `v`: an absent
value and the empty string are falsy. -/
def orDefault (v : Option JSString) (d : JSString) : JSString :=
  match v with
  | some s => if s = [] then d else s
  | none => d

/-! ## Data -/

/-- A job record as the backend returns it (`POST /videos`, `GET /videos/detail`). -/
structure Video where
  id : Nat
  status : JSString
  manimCode : JSString
  error_message : Option JSString
deriving DecidableEq

/-- The value a rejected request is caught with; `message` may be missing. -/
structure ApiError where
  message : Option JSString
deriving DecidableEq

/-- The object `videoData` passed to `videoAPI.createVideo`; `code` is present only
in `handleCreateVideo`. -/
structure VideoData where
  prompt : JSString
  code : Option JSString
  title : JSString
deriving DecidableEq

/-- The `useState` cells of the `Home` component. -/
structure HomeState where
  prompt : JSString
  generatedCode : JSString
  videoStatus : JSString
  currentVideo : Option Video
  loading : Bool
  error : JSString
  success : JSString
deriving DecidableEq

/-- The initial values of the `useState` cells. -/
def HomeState.init : HomeState :=
  { prompt := [], generatedCode := [], videoStatus := lit "idle", currentVideo := none,
    loading := false, error := [], success := [] }

/-- What a handler does to the outside: state setter calls, backend calls, the
call that starts polling, and the timer that re-runs `checkStatus`. -/
inductive Effect where
  | setPrompt (v : JSString)
  | setGeneratedCode (v : JSString)
  | setVideoStatus (v : JSString)
  | setCurrentVideo (v : Option Video)
  | setLoading (v : Bool)
  | setError (v : JSString)
  | setSuccess (v : JSString)
  | validateCode (code : JSString)
  | createVideo (data : VideoData)
  | getVideoDetail (id : Nat)
  | pollVideoStatus (id : Nat)
  | setTimeout (ms : Nat)
deriving DecidableEq

/-- One effect applied to the component state: a setter overwrites its cell,
every other effect leaves the state alone. -/
def Effect.apply (st : HomeState) : Effect → HomeState
  | .setPrompt v => { st with prompt := v }
  | .setGeneratedCode v => { st with generatedCode := v }
  | .setVideoStatus v => { st with videoStatus := v }
  | .setCurrentVideo v => { st with currentVideo := v }
  | .setLoading v => { st with loading := v }
  | .setError v => { st with error := v }
  | .setSuccess v => { st with success := v }
  | _ => st

/-- The component state after a log of effects. -/
def applyLog (st : HomeState) (log : List Effect) : HomeState :=
  log.foldl Effect.apply st

/-- A call to the backend. -/
def Effect.isNetworkCall : Effect → Bool
  | .validateCode _ => true
  | .createVideo _ => true
  | .getVideoDetail _ => true
  | _ => false

/-- A status request of the poll scheduler. -/
def Effect.isStatusRequest : Effect → Bool
  | .getVideoDetail _ => true
  | _ => false

/-- The delay of a timer effect. -/
def Effect.delay? : Effect → Option Nat
  | .setTimeout ms => some ms
  | _ => none

/-- Number of status requests in a log. -/
def requestCount (log : List Effect) : Nat := log.countP Effect.isStatusRequest

/-- The delays of the timers set in a log, in order. -/
def delays (log : List Effect) : List Nat := log.filterMap Effect.delay?

/-! ## Messages -/

def msgEmptyPrompt : JSString := lit "请输入描述文字"
def msgNoCode : JSString := lit "请先生成代码"
def msgTaskCreated : JSString := lit "视频任务已创建，正在处理中..."
def msgGenerateFailed : JSString := lit "代码生成失败："
def msgCreateFailed : JSString := lit "视频创建失败："
def msgUnknown : JSString := lit "未知错误"
def msgDone : JSString := lit "视频生成完成！"
def msgVideoFailed : JSString := lit "视频生成失败："
def msgTimeout : JSString := lit "视频生成超时（最长等待4分钟），请稍后查看个人中心"
def msgNetwork : JSString := lit "获取视频状态失败，请检查网络连接"

/-! ## pollVideoStatus -/

/-- The variables `attempts` and `lastErrorTime` that `checkStatus` closes over. -/
structure PollVars where
  attempts : Nat
  lastErrorTime : Int
deriving DecidableEq

def maxAttempts : Nat := 120

def errorRetryDelay : Nat := 5000

/-- The constant `interval` of `checkStatus`, as a function of the value of
`attempts` at the point where it is computed:
`Math.min(2000 + Math.floor(attempts / 10) * 1000, 5000)`. -/
def interval (attempts : Nat) : Nat := min (2000 + attempts / 10 * 1000) 5000

/-- One run of `checkStatus`: `res` is how `videoAPI.getVideoDetail(videoId)`
settles, `now` is what `Date.now()` reads (it is read in the `catch` block only),
`pv` holds `attempts` and `lastErrorTime` before the run.  The result is the two
variables after the run and the effects of the run, the request first. -/
def checkStatus (videoId : Nat) (res : Except ApiError Video) (now : Int) (pv : PollVars) :
    PollVars × List Effect :=
  match res with
  | .ok video =>
    if video.status = lit "completed" then
      (pv, [.getVideoDetail videoId, .setVideoStatus (lit "completed"),
            .setCurrentVideo (some video), .setSuccess msgDone, .setLoading false])
    else if video.status = lit "failed" then
      (pv, [.getVideoDetail videoId, .setVideoStatus (lit "error"),
            .setError (msgVideoFailed ++ orDefault video.error_message msgUnknown),
            .setLoading false])
    else
      let attempts := pv.attempts + 1
      if attempts < maxAttempts then
        ({ pv with attempts := attempts },
          [.getVideoDetail videoId, .setTimeout (interval attempts)])
      else
        ({ pv with attempts := attempts },
          [.getVideoDetail videoId, .setVideoStatus (lit "error"), .setError msgTimeout,
           .setLoading false])
  | .error _ =>
    let attempts := if now - pv.lastErrorTime < 30000 then pv.attempts + 3 else pv.attempts
    let attempts := attempts + 1
    if attempts < maxAttempts then
      ({ attempts := attempts, lastErrorTime := now },
        [.getVideoDetail videoId, .setTimeout errorRetryDelay])
    else
      ({ attempts := attempts, lastErrorTime := now },
        [.getVideoDetail videoId, .setVideoStatus (lit "error"), .setError msgNetwork,
         .setLoading false])

/-- Whether a run of `checkStatus` set the timer that runs it again. -/
def rescheduled (log : List Effect) : Bool := log.any fun e => (Effect.delay? e).isSome

/-- The rounds of `checkStatus` from round `round` on: `fetch i` is how the status
request of round `i` settles and `clock i` what `Date.now()` reads in round `i`
(rounds are counted from 0).  A round runs again exactly when the previous one set
the timer.  `fuel` bounds the number of rounds; `none` means it ran out. -/
def pollLoop (videoId : Nat) (fetch : Nat → Except ApiError Video) (clock : Nat → Int) :
    Nat → Nat → PollVars → Option (PollVars × List Effect)
  | 0, _, _ => none
  | fuel + 1, round, pv =>
    let r := checkStatus videoId (fetch round) (clock round) pv
    if rescheduled r.2 then
      match pollLoop videoId fetch clock fuel (round + 1) r.1 with
      | some (pv', log) => some (pv', r.2 ++ log)
      | none => none
    else
      some r

/-- The call `pollVideoStatus(videoId)`: `attempts = 0`, `lastErrorTime = 0`, then
`checkStatus()`.  The result is the final value of the two variables and the log
of all rounds. -/
def pollVideoStatus (videoId : Nat) (fetch : Nat → Except ApiError Video) (clock : Nat → Int) :
    Option (PollVars × List Effect) :=
  pollLoop videoId fetch clock maxAttempts 0 { attempts := 0, lastErrorTime := 0 }

/-! ## Submission handlers -/

/-- The template literal of the `title` field of `videoData`. -/
def titleOf (prompt : JSString) : JSString :=
  lit "动画 - " ++ substring0 prompt 30 ++ lit "..."

/-- The `catch` block of `handleGenerateCode`. -/
def generateCatch (error : ApiError) : List Effect :=
  [.setError (msgGenerateFailed ++ orDefault error.message msgUnknown),
   .setVideoStatus (lit "error"), .setLoading false]

/-- The `catch` block of `handleCreateVideo`. -/
def createCatch (error : ApiError) : List Effect :=
  [.setError (msgCreateFailed ++ orDefault error.message msgUnknown),
   .setVideoStatus (lit "error"), .setLoading false]

/-- The handler `handleGenerateCode`, run in state `st`; `createVideo` is how the
backend settles the job-creation call. -/
def handleGenerateCode (createVideo : VideoData → Except ApiError Video) (st : HomeState) :
    List Effect :=
  if trim st.prompt = [] then
    [.setError msgEmptyPrompt]
  else
    let videoData : VideoData :=
      { prompt := st.prompt, code := none, title := titleOf st.prompt }
    [.setLoading true, .setError [], .setSuccess [], .setGeneratedCode [],
     .setVideoStatus (lit "generating"), .createVideo videoData] ++
    match createVideo videoData with
    | .ok response =>
      [.setGeneratedCode response.manimCode, .setCurrentVideo (some response),
       .setVideoStatus (lit "processing"), .setSuccess msgTaskCreated,
       .pollVideoStatus response.id]
    | .error error => generateCatch error

/-- The handler `handleCreateVideo`, run in state `st`; `validateCode` and
`createVideo` are how the backend settles the two calls. -/
def handleCreateVideo (validateCode : JSString → Except ApiError Unit)
    (createVideo : VideoData → Except ApiError Video) (st : HomeState) : List Effect :=
  if st.generatedCode = [] then
    [.setError msgNoCode]
  else
    [.setLoading true, .setError [], .setSuccess [], .setVideoStatus (lit "generating"),
     .validateCode st.generatedCode] ++
    match validateCode st.generatedCode with
    | .error error => createCatch error
    | .ok _ =>
      let videoData : VideoData :=
        { prompt := st.prompt, code := some st.generatedCode, title := titleOf st.prompt }
      .createVideo videoData ::
      match createVideo videoData with
      | .ok response =>
        [.setCurrentVideo (some response), .setVideoStatus (lit "processing"),
         .setSuccess msgTaskCreated, .pollVideoStatus response.id]
      | .error error => createCatch error

/-- The handler `handleReset`. -/
def handleReset : List Effect :=
  [.setPrompt [], .setGeneratedCode [], .setVideoStatus (lit "idle"), .setCurrentVideo none,
   .setError [], .setSuccess []]

/-- The call that starts polling. -/
def Effect.isPollStart : Effect → Bool
  | .pollVideoStatus _ => true
  | _ => false

/-- The job-creation call. -/
def Effect.isCreateVideo : Effect → Bool
  | .createVideo _ => true
  | _ => false

/-! ## Notions used in the statements -/

/-- The log of rounds that each issue the status request and set the timer, one
round per delay. -/
def scheduledRounds (videoId : Nat) (ds : List Nat) : List Effect :=
  ds.flatMap fun d => [.getVideoDetail videoId, .setTimeout d]

/-- The effects that end polling, after the request of the last round. -/
inductive Terminal : List Effect → Prop
  | success (video : Video) : Terminal [.setVideoStatus (lit "completed"),
      .setCurrentVideo (some video), .setSuccess msgDone, .setLoading false]
  | failure (m : JSString) : Terminal [.setVideoStatus (lit "error"),
      .setError (msgVideoFailed ++ m), .setLoading false]
  | timeout : Terminal [.setVideoStatus (lit "error"), .setError msgTimeout, .setLoading false]
  | network : Terminal [.setVideoStatus (lit "error"), .setError msgNetwork, .setLoading false]

/-- The value of `attempts` after the `catch` block. -/
def errorAttempts (now : Int) (pv : PollVars) : Nat :=
  (if now - pv.lastErrorTime < 30000 then pv.attempts + 3 else pv.attempts) + 1

/-! ## Session manager (`contexts/AuthContext.jsx`) and request client (`services/api.js`)

* `localStorage` is the pair of its `token` and `user` entries; an entry is absent
  (`getItem` gives `null`) or holds a string.
* `JSON.stringify` and `JSON.parse` on user records are arguments of the operations:
  `stringify u` is the text of a user record, `parse s` is `.error ()` when
  `JSON.parse(s)` throws, `.ok none` when it gives a value that is no user record, and
  `.ok (some u)` when it gives the record `u`.
* A field of a response body that is missing (`undefined`) is `none`.
* Every call of `authAPI` goes through the response interceptor, so the operations
  take the answer of the server as axios sees it and run the interceptor on it.
* Assigning `window.location.href` is recorded in the session (`href`); the document
  load it triggers is `pageLoad`: the component state starts again from its
  `useState` initial values and the mount effect runs.
* The mount effect returns before its `getProfile` call settles: `mountEffect` is its
  synchronous part, `profileResolved` and `profileRejected` are the callbacks, and
  `SessionEvent` lets other operations run in between.
-/

/-- A user record of the backend. -/
structure User where
  id : Nat
  username : JSString
  email : JSString
deriving DecidableEq

/-- The two `localStorage` entries the program uses. -/
structure Storage where
  token : Option JSString
  user : Option JSString
deriving DecidableEq

/-- The state of `AuthProvider`: the `useState` cells `user` and `loading`, with
the `localStorage` it reads and writes, and the URL assigned to
`window.location.href` since the document loaded, if any. -/
structure Session where
  storage : Storage
  user : Option User
  loading : Bool
  href : Option JSString
deriving DecidableEq

/-- The state of `AuthProvider` when a document loads over the given storage:
`useState(null)` and `useState(true)`. -/
def AuthProvider.init (storage : Storage) : Session :=
  { storage := storage, user := none, loading := true, href := none }

/-- The body of an answer to `/auth/login` or `/auth/register` as the handlers see
it: `nullish` is `null` or `undefined`; any other value has the two fields, `none`
when the field is missing. -/
inductive AuthResponse where
  | nullish
  | body (token : Option JSString) (user : Option User)
deriving DecidableEq

/-- The object `login` and `register` return. -/
structure AuthResult where
  success : Bool
  error : Option JSString
deriving DecidableEq

/-- The response carried by an axios error: its status and the `message` field of
its body (`data` is `none` when `error.response.data` is falsy). -/
structure ErrorResponse where
  status : Nat
  data : Option ApiError
deriving DecidableEq

/-- The error object axios passes to the response interceptor: its own `message`
and, when the server answered, the response. -/
structure AxiosError where
  message : Option JSString
  response : Option ErrorResponse
deriving DecidableEq

/-- The request configuration as far as the request interceptor touches it. -/
structure RequestConfig where
  url : JSString
  authorization : Option JSString
deriving DecidableEq

/-- What the error handler of the response interceptor leaves behind: the storage,
the URL assigned to `window.location.href` if any, and the value the call is
rejected with. -/
structure Rejection where
  storage : Storage
  href : Option JSString
  reason : ApiError
deriving DecidableEq

def msgMalformed : JSString := lit "服务器响应格式错误"
def msgLoginFailed : JSString := lit "登录失败"
def msgRegisterFailed : JSString := lit "注册失败"

/-- The string `localStorage.setItem` stores for an optional string value:
`undefined` is stored as the text `undefined`. -/
def storedText (v : Option JSString) : JSString :=
  match v with
  | some s => s
  | none => lit "undefined"

/-- The request interceptor: `config.headers.Authorization` is set when
`localStorage.getItem('token')` is truthy. -/
def requestInterceptor (storage : Storage) (config : RequestConfig) : RequestConfig :=
  match storage.token with
  | some token =>
    if token = [] then config
    else { config with authorization := some (lit "Bearer " ++ token) }
  | none => config

/-- The value the error handler rejects with: `error.response?.data || error`, as
far as its `message` goes. -/
def rejectionReason (error : AxiosError) : ApiError :=
  match error.response with
  | some r =>
    match r.data with
    | some data => data
    | none => { message := error.message }
  | none => { message := error.message }

/-- The error handler of the response interceptor. -/
def responseInterceptorError (storage : Storage) (error : AxiosError) : Rejection :=
  if error.response.map ErrorResponse.status = some 401 then
    { storage := { token := none, user := none }, href := some (lit "/login"),
      reason := rejectionReason error }
  else
    { storage := storage, href := none, reason := rejectionReason error }

/-- A rejected call seen from the session: the response interceptor has run on
the storage, and the caller catches `reason`. -/
def Session.reject (s : Session) (error : AxiosError) : Session × ApiError :=
  let r := responseInterceptorError s.storage error
  ({ s with storage := r.storage,
            href := match r.href with
                    | some url => some url
                    | none => s.href },
    r.reason)

/-- The function `login`: `res` is how the server answers `authAPI.login(credentials)`. -/
def login (stringify : User → JSString) (res : Except AxiosError AuthResponse) (s : Session) :
    Session × AuthResult :=
  match res with
  | .ok (.body (some token) (some userData)) =>
    if token = [] then
      (s, { success := false, error := some msgMalformed })
    else
      ({ s with storage := { token := some token, user := some (stringify userData) },
                user := some userData },
        { success := true, error := none })
  | .ok _ => (s, { success := false, error := some msgMalformed })
  | .error error =>
    ((s.reject error).1,
      { success := false, error := some (orDefault (s.reject error).2.message msgLoginFailed) })

/-- The function `register`: `res` is how the server answers
`authAPI.register(userData)` and `typeError` is the text of the `TypeError` that
destructuring `null` or `undefined` throws. -/
def register (stringify : User → JSString) (typeError : JSString)
    (res : Except AxiosError AuthResponse) (s : Session) : Session × AuthResult :=
  match res with
  | .ok (.body token newUser) =>
    ({ s with storage := { token := some (storedText token),
                           user := some (storedText (newUser.map stringify)) },
              user := newUser },
      { success := true, error := none })
  | .ok .nullish =>
    (s, { success := false, error := some (orDefault (some typeError) msgRegisterFailed) })
  | .error error =>
    ((s.reject error).1,
      { success := false,
        error := some (orDefault (s.reject error).2.message msgRegisterFailed) })

/-- The function `logout`. -/
def logout (s : Session) : Session :=
  { s with storage := { token := none, user := none }, user := none }

/-- The synchronous part of the mount effect of `AuthProvider`: the session it
leaves, and whether it has sent `authAPI.getProfile()`, whose callbacks run later. -/
def mountEffect (parse : JSString → Except Unit (Option User)) (s : Session) :
    Session × Bool :=
  match s.storage.token, s.storage.user with
  | some token, some savedUser =>
    if token = [] ∨ savedUser = [] then ({ s with loading := false }, false)
    else
      match parse savedUser with
      | .error _ =>
        ({ s with storage := { token := none, user := none }, user := none,
                  loading := false }, false)
      | .ok parsed => ({ s with user := parsed, loading := false }, true)
  | _, _ => ({ s with loading := false }, false)

/-- The `.then` callback of the `getProfile` call of the mount effect, run on the
session as it is when the answer arrives. -/
def profileResolved (stringify : User → JSString) (userData : Option User) (s : Session) :
    Session :=
  { s with user := userData,
           storage := { s.storage with user := some (storedText (userData.map stringify)) } }

/-- A rejected `getProfile` call of the mount effect: the response interceptor,
then the `.catch` callback, run on the session as it is when the answer arrives. -/
def profileRejected (error : AxiosError) (s : Session) : Session :=
  { (s.reject error).1 with storage := { token := none, user := none }, user := none }

/-- The mount effect of `AuthProvider` followed at once by the callback of the
`getProfile` call it may have sent, with nothing running in between: `profile` is how
the server answers that call. -/
def restore (stringify : User → JSString) (parse : JSString → Except Unit (Option User))
    (profile : Except AxiosError (Option User)) (s : Session) : Session :=
  if (mountEffect parse s).2 then
    match profile with
    | .ok userData => profileResolved stringify userData (mountEffect parse s).1
    | .error error => profileRejected error (mountEffect parse s).1
  else (mountEffect parse s).1

/-- A new document loads over the storage: `AuthProvider` starts from its initial
state and its mount effect runs. -/
def pageLoad (stringify : User → JSString) (parse : JSString → Except Unit (Option User))
    (profile : Except AxiosError (Option User)) (storage : Storage) : Session :=
  restore stringify parse profile (AuthProvider.init storage)

/-- The session of a loaded document, with the flag that tells whether the
`getProfile` call of its mount effect is still in flight. -/
structure Running where
  session : Session
  pending : Bool
deriving DecidableEq

/-- A document loads over the storage: the initial state, then the synchronous part
of the mount effect. -/
def load (parse : JSString → Except Unit (Option User)) (storage : Storage) : Running :=
  { session := (mountEffect parse (AuthProvider.init storage)).1,
    pending := (mountEffect parse (AuthProvider.init storage)).2 }

/-- What can happen to the session of a loaded document, with the answer of the
server it meets: the two callbacks of the `getProfile` call of the mount effect, the
three operations `login`, `register` and `logout`, and a call of any other endpoint
that the server fails (`failedCall`), which only runs the response interceptor. -/
inductive SessionEvent where
  | profileResolved (userData : Option User)
  | profileRejected (error : AxiosError)
  | login (res : Except AxiosError AuthResponse)
  | register (res : Except AxiosError AuthResponse)
  | logout
  | failedCall (error : AxiosError)

/-- One event on the current document. A callback of `getProfile` runs only when
the call is in flight; the other events leave a call in flight as it is. -/
def Running.step (stringify : User → JSString) (typeError : JSString) (r : Running) :
    SessionEvent → Running
  | .profileResolved userData =>
    if r.pending then
      { session := ManimOnline.profileResolved stringify userData r.session, pending := false }
    else r
  | .profileRejected error =>
    if r.pending then
      { session := ManimOnline.profileRejected error r.session, pending := false }
    else r
  | .login res => { r with session := (ManimOnline.login stringify res r.session).1 }
  | .register res =>
    { r with session := (ManimOnline.register stringify typeError res r.session).1 }
  | .logout => { r with session := ManimOnline.logout r.session }
  | .failedCall error => { r with session := (r.session.reject error).1 }

/-- One event and, when it assigned `window.location.href`, the document load that
follows: the new document starts over the storage as the event left it, and a
`getProfile` call of the old document is dropped with it. -/
def Running.next (stringify : User → JSString) (parse : JSString → Except Unit (Option User))
    (typeError : JSString) (r : Running) (ev : SessionEvent) : Running :=
  match (r.step stringify typeError ev).session.href with
  | some _ => load parse (r.step stringify typeError ev).session.storage
  | none => r.step stringify typeError ev

/-- The state after a sequence of events. -/
def runEvents (stringify : User → JSString) (parse : JSString → Except Unit (Option User))
    (typeError : JSString) (r : Running) (events : List SessionEvent) : Running :=
  events.foldl (Running.next stringify parse typeError) r

/-- A `localStorage` entry as the program reads it: present and not the empty
string (`if (token && savedUser)`, `if (token)`). -/
def truthy (v : Option JSString) : Bool :=
  match v with
  | some s => decide (s ≠ [])
  | none => false

/-- The pairing invariant: the storage holds both a credential and a profile or
neither, and the in-memory user is present only if both are stored. -/
def Session.Paired (s : Session) : Prop :=
  truthy s.storage.token = truthy s.storage.user ∧
  (s.user.isSome = true → truthy s.storage.token = true ∧ truthy s.storage.user = true)

instance (s : Session) : Decidable s.Paired := by
  unfold Session.Paired
  infer_instance

/-- The events for which the pairing invariant is stated: `logout` is not called
while the `getProfile` call of the mount effect is in flight, and `register` is
answered with a non-empty token and a user, or rejected. -/
def SessionEvent.admissible (pending : Bool) : SessionEvent → Bool
  | .logout => !pending
  | .register (.ok (.body (some token) (some _))) => decide (token ≠ [])
  | .register (.ok _) => false
  | _ => true

/-- Every event of the sequence is admissible when it happens. -/
def admissibleRun (stringify : User → JSString)
    (parse : JSString → Except Unit (Option User)) (typeError : JSString) :
    Running → List SessionEvent → Bool
  | _, [] => true
  | r, ev :: events =>
    ev.admissible r.pending &&
      admissibleRun stringify parse typeError (r.next stringify parse typeError ev) events

/-- The invariant of the event system: pairing, a stored credential while the
`getProfile` call is in flight, and no pending navigation. -/
def Running.Inv (r : Running) : Prop :=
  r.session.Paired ∧ (r.pending = true → truthy r.session.storage.token = true) ∧
  r.session.href = none

/-- The values of `attempts` and `lastErrorTime` after the first `i` rounds of
`checkStatus`, from `attempts = 0` and `lastErrorTime = 0`. -/
def varsAfter (videoId : Nat) (fetch : Nat → Except ApiError Video) (clock : Nat → Int) :
    Nat → PollVars
  | 0 => { attempts := 0, lastErrorTime := 0 }
  | i + 1 => (checkStatus videoId (fetch i) (clock i) (varsAfter videoId fetch clock i)).1

/-- A toy serialisation of user records used in examples: the id followed by the
code units of the name. -/
def exampleStringify (u : User) : JSString := u.id :: u.username

/-- The matching toy parser: it reads back an id and a name, with an empty e-mail. -/
def exampleParse (s : JSString) : Except Unit (Option User) :=
  match s with
  | [] => .error ()
  | id :: name => .ok (some { id := id, username := name, email := [] })

/-! ## The rendered `Home` component

What the JSX of `Home.jsx` lets happen: a control fires its handler only when it is
rendered and not disabled. A poll is a call of `pollVideoStatus` whose `checkStatus` is
in flight or scheduled by a timer. The download buttons set no state and are left out.
-/

/-- The textarea: `disabled={loading}`. -/
def promptEnabled (st : HomeState) : Bool := !st.loading

/-- The button of `handleGenerateCode`: `disabled={loading || !prompt.trim()}`. -/
def generateEnabled (st : HomeState) : Bool :=
  !(st.loading || decide (trim st.prompt = []))

/-- The button of `handleCreateVideo`: rendered under `generatedCode &&`, with
`disabled={loading || videoStatus === 'generating' || videoStatus === 'processing'}`. -/
def createEnabled (st : HomeState) : Bool :=
  decide (st.generatedCode ≠ []) &&
    !(st.loading || decide (st.videoStatus = lit "generating") ||
      decide (st.videoStatus = lit "processing"))

/-- The button of `handleReset`: rendered under `videoStatus === 'error' &&`. -/
def resetEnabled (st : HomeState) : Bool := decide (st.videoStatus = lit "error")

/-- A call of `pollVideoStatus` that has not ended: its job id and its variables. -/
structure Poll where
  videoId : Nat
  vars : PollVars
deriving DecidableEq

/-- The polls a handler starts: one per call `pollVideoStatus(id)` in its log, with
`attempts = 0` and `lastErrorTime = 0`. -/
def startedPolls (log : List Effect) : List Poll :=
  log.filterMap fun e =>
    match e with
    | .pollVideoStatus id => some { videoId := id, vars := { attempts := 0, lastErrorTime := 0 } }
    | _ => none

/-- The component: its state cells and the polls that have not ended. -/
structure Component where
  ui : HomeState
  polls : List Poll
deriving DecidableEq

/-- The component when it mounts. -/
def Component.init : Component := { ui := HomeState.init, polls := [] }

/-- What can happen to the mounted component: the user types in the textarea,
clicks one of the three buttons (with the answers the backend will give to the
calls of the handler), or round `i` of the polls that have not ended runs
`checkStatus` with the answer `res` at clock reading `now`. -/
inductive HomeEvent where
  | typePrompt (v : JSString)
  | clickGenerate (createVideo : VideoData → Except ApiError Video)
  | clickCreate (validateCode : JSString → Except ApiError Unit)
      (createVideo : VideoData → Except ApiError Video)
  | clickReset
  | pollRound (i : Nat) (res : Except ApiError Video) (now : Int)

/-- One event. A control that is disabled or not rendered fires nothing, and a
round of a poll that does not exist does not happen. -/
def Component.step (c : Component) : HomeEvent → Component
  | .typePrompt v =>
    if promptEnabled c.ui then { c with ui := applyLog c.ui [.setPrompt v] } else c
  | .clickGenerate createVideo =>
    if generateEnabled c.ui then
      { ui := applyLog c.ui (handleGenerateCode createVideo c.ui),
        polls := c.polls ++ startedPolls (handleGenerateCode createVideo c.ui) }
    else c
  | .clickCreate validateCode createVideo =>
    if createEnabled c.ui then
      { ui := applyLog c.ui (handleCreateVideo validateCode createVideo c.ui),
        polls := c.polls ++ startedPolls (handleCreateVideo validateCode createVideo c.ui) }
    else c
  | .clickReset =>
    if resetEnabled c.ui then { c with ui := applyLog c.ui handleReset } else c
  | .pollRound i res now =>
    match c.polls[i]? with
    | some p =>
      { ui := applyLog c.ui (checkStatus p.videoId res now p.vars).2,
        polls :=
          if rescheduled (checkStatus p.videoId res now p.vars).2 then
            c.polls.set i { p with vars := (checkStatus p.videoId res now p.vars).1 }
          else c.polls.eraseIdx i }
    | none => c

/-- The component after a sequence of events. -/
def Component.run (c : Component) (events : List HomeEvent) : Component :=
  events.foldl Component.step c

/-- The event is a round of a poll. -/
def HomeEvent.isPollRound : HomeEvent → Bool
  | .pollRound _ _ _ => true
  | _ => false

/-- The state a submission handler leaves before its first backend call answers:
the setter calls that precede the call in its log. -/
def beforeAnswer (st : HomeState) (log : List Effect) : HomeState :=
  applyLog st (log.takeWhile fun e => !e.isNetworkCall)

/-- The invariant of the component: at most one poll has not ended; while one has
not, `loading` is true and `videoStatus` is `processing`; and `loading` is false
whenever `videoStatus` is `error`. -/
def Component.Inv (c : Component) : Prop :=
  c.polls.length ≤ 1 ∧
  (c.polls ≠ [] → c.ui.loading = true ∧ c.ui.videoStatus = lit "processing") ∧
  (c.ui.videoStatus = lit "error" → c.ui.loading = false)

/-! ## Lemmas on one round and on the loop -/

theorem checkStatus_completed (videoId : Nat) (video : Video) (now : Int) (pv : PollVars)
    (h : video.status = lit "completed") :
    checkStatus videoId (.ok video) now pv =
      (pv, [.getVideoDetail videoId, .setVideoStatus (lit "completed"),
            .setCurrentVideo (some video), .setSuccess msgDone, .setLoading false]) := by
  simp [checkStatus, h]

theorem checkStatus_failed (videoId : Nat) (video : Video) (now : Int) (pv : PollVars)
    (h : video.status = lit "failed") :
    checkStatus videoId (.ok video) now pv =
      (pv, [.getVideoDetail videoId, .setVideoStatus (lit "error"),
            .setError (msgVideoFailed ++ orDefault video.error_message msgUnknown),
            .setLoading false]) := by
  have hne : lit "failed" ≠ lit "completed" := by decide
  simp [checkStatus, h, hne]

theorem checkStatus_pending (videoId : Nat) (video : Video) (now : Int) (pv : PollVars)
    (h1 : video.status ≠ lit "completed") (h2 : video.status ≠ lit "failed")
    (h : pv.attempts + 1 < maxAttempts) :
    checkStatus videoId (.ok video) now pv =
      ({ pv with attempts := pv.attempts + 1 },
        [.getVideoDetail videoId, .setTimeout (interval (pv.attempts + 1))]) := by
  simp [checkStatus, h1, h2, h]

theorem checkStatus_exhausted (videoId : Nat) (video : Video) (now : Int) (pv : PollVars)
    (h1 : video.status ≠ lit "completed") (h2 : video.status ≠ lit "failed")
    (h : ¬ pv.attempts + 1 < maxAttempts) :
    checkStatus videoId (.ok video) now pv =
      ({ pv with attempts := pv.attempts + 1 },
        [.getVideoDetail videoId, .setVideoStatus (lit "error"), .setError msgTimeout,
         .setLoading false]) := by
  simp [checkStatus, h1, h2, h]

theorem checkStatus_error_retry (videoId : Nat) (e : ApiError) (now : Int) (pv : PollVars)
    (h : errorAttempts now pv < maxAttempts) :
    checkStatus videoId (.error e) now pv =
      ({ attempts := errorAttempts now pv, lastErrorTime := now },
        [.getVideoDetail videoId, .setTimeout errorRetryDelay]) := by
  unfold errorAttempts at h
  simp [checkStatus, errorAttempts, h]

theorem checkStatus_error_stop (videoId : Nat) (e : ApiError) (now : Int) (pv : PollVars)
    (h : ¬ errorAttempts now pv < maxAttempts) :
    checkStatus videoId (.error e) now pv =
      ({ attempts := errorAttempts now pv, lastErrorTime := now },
        [.getVideoDetail videoId, .setVideoStatus (lit "error"), .setError msgNetwork,
         .setLoading false]) := by
  unfold errorAttempts at h
  simp [checkStatus, errorAttempts, h]

/-- Shape of one round: it either sets the timer and nothing else, with a larger
attempt count that is still below the budget, or it ends polling. -/
theorem checkStatus_shape (videoId : Nat) (res : Except ApiError Video) (now : Int)
    (pv : PollVars) :
    (∃ d, (checkStatus videoId res now pv).2 = [.getVideoDetail videoId, .setTimeout d] ∧
        pv.attempts < (checkStatus videoId res now pv).1.attempts ∧
        (checkStatus videoId res now pv).1.attempts < maxAttempts) ∨
    (∃ tail, (checkStatus videoId res now pv).2 = .getVideoDetail videoId :: tail ∧
        Terminal tail) := by
  cases res with
  | ok video =>
    by_cases h1 : video.status = lit "completed"
    · right; rw [checkStatus_completed _ _ _ _ h1]; exact ⟨_, rfl, Terminal.success video⟩
    · by_cases h2 : video.status = lit "failed"
      · right; rw [checkStatus_failed _ _ _ _ h2]; exact ⟨_, rfl, Terminal.failure _⟩
      · by_cases h : pv.attempts + 1 < maxAttempts
        · left; rw [checkStatus_pending _ _ _ _ h1 h2 h]
          exact ⟨_, rfl, Nat.lt_succ_self _, h⟩
        · right; rw [checkStatus_exhausted _ _ _ _ h1 h2 h]; exact ⟨_, rfl, Terminal.timeout⟩
  | error e =>
    by_cases h : errorAttempts now pv < maxAttempts
    · left; rw [checkStatus_error_retry _ _ _ _ h]
      refine ⟨_, rfl, ?_, h⟩
      show pv.attempts < errorAttempts now pv
      unfold errorAttempts; split <;> omega
    · right; rw [checkStatus_error_stop _ _ _ _ h]; exact ⟨_, rfl, Terminal.network⟩

theorem Terminal.not_rescheduled {tail : List Effect} (h : Terminal tail) (videoId : Nat) :
    rescheduled (.getVideoDetail videoId :: tail) = false := by
  cases h <;> rfl

theorem pollLoop_continue (videoId : Nat) (fetch : Nat → Except ApiError Video)
    (clock : Nat → Int) (fuel round : Nat) (pv : PollVars) (d : Nat)
    (h : (checkStatus videoId (fetch round) (clock round) pv).2 =
      [.getVideoDetail videoId, .setTimeout d]) :
    pollLoop videoId fetch clock (fuel + 1) round pv =
      (pollLoop videoId fetch clock fuel (round + 1)
        (checkStatus videoId (fetch round) (clock round) pv).1).map
        fun r => (r.1, scheduledRounds videoId [d] ++ r.2) := by
  rw [pollLoop]
  simp only [h]
  have : rescheduled [Effect.getVideoDetail videoId, Effect.setTimeout d] = true := rfl
  simp only [this, if_true]
  cases pollLoop videoId fetch clock fuel (round + 1)
      (checkStatus videoId (fetch round) (clock round) pv).1 with
  | none => rfl
  | some r => rfl

theorem pollLoop_stop (videoId : Nat) (fetch : Nat → Except ApiError Video)
    (clock : Nat → Int) (fuel round : Nat) (pv : PollVars) (tail : List Effect)
    (h : (checkStatus videoId (fetch round) (clock round) pv).2 =
      .getVideoDetail videoId :: tail) (ht : Terminal tail) :
    pollLoop videoId fetch clock (fuel + 1) round pv =
      some (checkStatus videoId (fetch round) (clock round) pv) := by
  rw [pollLoop]
  simp only [h, ht.not_rescheduled]
  simp

theorem scheduledRounds_cons (videoId d : Nat) (ds : List Nat) :
    scheduledRounds videoId (d :: ds) =
      .getVideoDetail videoId :: .setTimeout d :: scheduledRounds videoId ds := by
  simp [scheduledRounds]

theorem scheduledRounds_append (videoId : Nat) (ds es : List Nat) :
    scheduledRounds videoId (ds ++ es) =
      scheduledRounds videoId ds ++ scheduledRounds videoId es := by
  simp [scheduledRounds]

theorem requestCount_scheduledRounds (videoId : Nat) (ds : List Nat) :
    requestCount (scheduledRounds videoId ds) = ds.length := by
  induction ds with
  | nil => rfl
  | cons d ds ih =>
    rw [scheduledRounds_cons]
    simp only [requestCount] at ih ⊢
    simp [List.countP_cons, Effect.isStatusRequest, ih]

theorem delays_scheduledRounds (videoId : Nat) (ds : List Nat) :
    delays (scheduledRounds videoId ds) = ds := by
  induction ds with
  | nil => rfl
  | cons d ds ih =>
    rw [scheduledRounds_cons]
    simp only [delays] at ih ⊢
    simp [List.filterMap_cons, Effect.delay?, ih]

theorem applyLog_scheduledRounds (st : HomeState) (videoId : Nat) (ds : List Nat) :
    applyLog st (scheduledRounds videoId ds) = st := by
  induction ds with
  | nil => rfl
  | cons d ds ih =>
    rw [scheduledRounds_cons]
    simpa [applyLog, Effect.apply] using ih

theorem applyLog_append (st : HomeState) (l₁ l₂ : List Effect) :
    applyLog st (l₁ ++ l₂) = applyLog (applyLog st l₁) l₂ := by
  simp [applyLog, List.foldl_append]

theorem Terminal.requestCount {tail : List Effect} (h : Terminal tail) :
    requestCount tail = 0 := by
  cases h <;> rfl

theorem Terminal.delays {tail : List Effect} (h : Terminal tail) :
    delays tail = [] := by
  cases h <;> rfl

/-- With fuel for the remaining budget the loop ends: some rounds that set the
timer, then one round that ends polling. -/
theorem pollLoop_total (videoId : Nat) (fetch : Nat → Except ApiError Video)
    (clock : Nat → Int) :
    ∀ (fuel round : Nat) (pv : PollVars), maxAttempts ≤ pv.attempts + fuel → 1 ≤ fuel →
      ∃ pv' ds tail, pollLoop videoId fetch clock fuel round pv =
          some (pv', scheduledRounds videoId ds ++ .getVideoDetail videoId :: tail) ∧
        Terminal tail ∧ ds.length < fuel := by
  intro fuel
  induction fuel with
  | zero => intro _ _ _ h; omega
  | succ fuel ih =>
    intro round pv hb _
    rcases checkStatus_shape videoId (fetch round) (clock round) pv with
      ⟨d, hlog, hlt, hmax⟩ | ⟨tail, hlog, ht⟩
    · have hb' : maxAttempts ≤
          (checkStatus videoId (fetch round) (clock round) pv).1.attempts + fuel := by omega
      have hf : 1 ≤ fuel := by omega
      obtain ⟨pv', ds, tail, hrun, ht, hlen⟩ := ih (round + 1) _ hb' hf
      refine ⟨pv', d :: ds, tail, ?_, ht, by simpa using hlen⟩
      rw [pollLoop_continue _ _ _ _ _ _ _ hlog, hrun]
      simp [scheduledRounds_cons, scheduledRounds]
    · refine ⟨(checkStatus videoId (fetch round) (clock round) pv).1, [], tail, ?_, ht,
        by simp⟩
      rw [pollLoop_stop _ _ _ _ _ _ _ hlog ht]
      simp [scheduledRounds, ← hlog]

theorem range_map_interval_succ (a n : Nat) :
    (List.range (n + 1)).map (fun i => interval (a + i + 1)) =
      interval (a + 1) :: (List.range n).map fun i => interval (a + 1 + i + 1) := by
  rw [List.range_succ_eq_map, List.map_cons, List.map_map, Nat.add_zero]
  refine congrArg (List.cons (interval (a + 1))) (List.map_congr_left ?_)
  intro i _
  exact congrArg interval (by simp only [Function.comp, Nat.succ_eq_add_one]; omega)

/-- Rounds that all fetch a non-terminal status below the budget: each sets the
timer with the interval of the incremented attempt count. -/
theorem pollLoop_pending_rounds (videoId : Nat) (fetch : Nat → Except ApiError Video)
    (clock : Nat → Int) (fuel : Nat) :
    ∀ (n round : Nat) (pv : PollVars),
      (∀ i, i < n → ∃ video, fetch (round + i) = .ok video ∧
        video.status ≠ lit "completed" ∧ video.status ≠ lit "failed") →
      pv.attempts + n < maxAttempts →
      pollLoop videoId fetch clock (n + fuel) round pv =
        (pollLoop videoId fetch clock fuel (round + n)
          { pv with attempts := pv.attempts + n }).map
          fun r => (r.1, scheduledRounds videoId
            ((List.range n).map fun i => interval (pv.attempts + i + 1)) ++ r.2) := by
  intro n
  induction n with
  | zero =>
    intro round pv _ _
    simp [scheduledRounds]
  | succ n ih =>
    intro round pv hf hb
    obtain ⟨video, hv, h1, h2⟩ := hf 0 (Nat.succ_pos n)
    have hstep := checkStatus_pending videoId video (clock round) pv h1 h2 (by omega)
    rw [Nat.add_zero] at hv
    have hlog : (checkStatus videoId (fetch round) (clock round) pv).2 =
        [.getVideoDetail videoId, .setTimeout (interval (pv.attempts + 1))] := by
      rw [hv, hstep]
    have e : n + 1 + fuel = (n + fuel) + 1 := by omega
    rw [e, pollLoop_continue _ _ _ _ _ _ _ hlog, hv, hstep]
    have hf' : ∀ i, i < n → ∃ video, fetch (round + 1 + i) = .ok video ∧
        video.status ≠ lit "completed" ∧ video.status ≠ lit "failed" := by
      intro i hi
      have := hf (i + 1) (by omega)
      rwa [show round + (i + 1) = round + 1 + i by omega] at this
    rw [ih (round + 1) _ hf' (by simp; omega)]
    simp only [Option.map_map]
    rw [show round + 1 + n = round + (n + 1) by omega]
    have e2 : pv.attempts + 1 + n = pv.attempts + (n + 1) := by omega
    simp only [e2]
    congr 1
    funext r
    simp only [Function.comp]
    rw [range_map_interval_succ]
    simp [scheduledRounds]

theorem interval_eq_of_lt {n : Nat} (h : n < 10) : interval n = 2000 := by
  have : n / 10 = 0 := Nat.div_eq_of_lt h
  simp [interval, this]

theorem interval_eq_of_ge {n : Nat} (h : 30 ≤ n) : interval n = 5000 := by
  have : 3 ≤ n / 10 := by omega
  unfold interval
  omega

theorem interval_bounds (n : Nat) : 2000 ≤ interval n ∧ interval n ≤ 5000 := by
  unfold interval
  omega

theorem interval_mono {n m : Nat} (h : n ≤ m) : interval n ≤ interval m := by
  have : n / 10 ≤ m / 10 := Nat.div_le_div_right h
  unfold interval
  omega

/-- C1: the delay that `checkStatus` sets after a non-error round is
`min(2000 + floor(n / 10) * 1000, 5000)` ms, where `n` is the value of `attempts` at the
point where the delay is computed; it is 2000 for `n < 10`, 5000 for `n ≥ 30`, always
between 2000 and 5000, and non-decreasing in `n`. -/
theorem C1_interval_schedule (n : Nat) :
    interval n = min (2000 + n / 10 * 1000) 5000 ∧
    (∀ (videoId : Nat) (video : Video) (now : Int) (pv : PollVars),
      video.status ≠ lit "completed" → video.status ≠ lit "failed" →
      pv.attempts + 1 = n → n < maxAttempts →
      delays (checkStatus videoId (.ok video) now pv).2 = [min (2000 + n / 10 * 1000) 5000]) ∧
    (n < 10 → interval n = 2000) ∧
    (30 ≤ n → interval n = 5000) ∧
    2000 ≤ interval n ∧ interval n ≤ 5000 ∧
    ∀ m, n ≤ m → interval n ≤ interval m := by
  refine ⟨rfl, ?_, interval_eq_of_lt, interval_eq_of_ge, (interval_bounds n).1,
    (interval_bounds n).2, fun m h => interval_mono h⟩
  intro videoId video now pv h1 h2 hn hlt
  subst hn
  rw [checkStatus_pending _ _ _ _ h1 h2 hlt]
  rfl

/-- C5: a round whose status request is rejected at clock reading `now` sets
`lastErrorTime` to `now`, adds 4 to `attempts` when `now - lastErrorTime < 30000` and 1
otherwise; when the new count reaches 120 it reports the network failure
(`videoStatus` error, loading false) and sets no timer, otherwise it sets the timer to
exactly 5000 ms. -/
theorem C5_error_round (videoId : Nat) (e : ApiError) (now : Int) (pv : PollVars) :
    (checkStatus videoId (.error e) now pv).1.lastErrorTime = now ∧
    (checkStatus videoId (.error e) now pv).1.attempts =
      (if now - pv.lastErrorTime < 30000 then pv.attempts + 4 else pv.attempts + 1) ∧
    (maxAttempts ≤ (checkStatus videoId (.error e) now pv).1.attempts →
      (checkStatus videoId (.error e) now pv).2 =
        [.getVideoDetail videoId, .setVideoStatus (lit "error"), .setError msgNetwork,
         .setLoading false] ∧
      delays (checkStatus videoId (.error e) now pv).2 = [] ∧
      ∀ st : HomeState,
        (applyLog st (checkStatus videoId (.error e) now pv).2).videoStatus = lit "error" ∧
        (applyLog st (checkStatus videoId (.error e) now pv).2).error = msgNetwork ∧
        (applyLog st (checkStatus videoId (.error e) now pv).2).loading = false) ∧
    ((checkStatus videoId (.error e) now pv).1.attempts < maxAttempts →
      (checkStatus videoId (.error e) now pv).2 =
        [.getVideoDetail videoId, .setTimeout 5000]) := by
  have hatt : errorAttempts now pv =
      (if now - pv.lastErrorTime < 30000 then pv.attempts + 4 else pv.attempts + 1) := by
    unfold errorAttempts
    split <;> rfl
  by_cases h : errorAttempts now pv < maxAttempts
  · rw [checkStatus_error_retry _ _ _ _ h]
    refine ⟨rfl, hatt, ?_, fun _ => rfl⟩
    intro h'
    exact absurd h (Nat.not_lt.mpr h')
  · rw [checkStatus_error_stop _ _ _ _ h]
    refine ⟨rfl, hatt, fun _ => ⟨rfl, rfl, fun st => ⟨rfl, rfl, rfl⟩⟩, ?_⟩
    intro h'
    exact absurd h' h

/-- C6 as stated fails: the round that starts with `attempts = 9` fetches a
non-terminal status, stays below the budget, and sets the timer to 3000 ms, not to
`min(2000 + floor(9 / 10) * 1000, 5000) = 2000` ms. -/
theorem C6_counterexample :
    (lit "processing" ≠ lit "completed" ∧ lit "processing" ≠ lit "failed") ∧
    (9 : Nat) + 1 < maxAttempts ∧
    min (2000 + 9 / 10 * 1000) 5000 = 2000 ∧
    delays (checkStatus 42
      (.ok { id := 42, status := lit "processing", manimCode := [], error_message := none })
      0 { attempts := 9, lastErrorTime := 0 }).2 = [3000] ∧
    delays (checkStatus 42
      (.ok { id := 42, status := lit "processing", manimCode := [], error_message := none })
      0 { attempts := 9, lastErrorTime := 0 }).2 ≠ [min (2000 + 9 / 10 * 1000) 5000] := by
  decide

/-- C6, amended: after a non-error, non-terminal round that stays below the budget,
the timer is set to the interval formula applied to the attempt count after this
round's increment: if the count was `a` when the round started, the delay is
`min(2000 + floor((a + 1) / 10) * 1000, 5000)` ms and the count becomes `a + 1`. -/
theorem C6_delay_uses_incremented_count (videoId : Nat) (video : Video) (now : Int)
    (pv : PollVars) (h1 : video.status ≠ lit "completed") (h2 : video.status ≠ lit "failed")
    (h : pv.attempts + 1 < maxAttempts) :
    (checkStatus videoId (.ok video) now pv).2 =
      [.getVideoDetail videoId,
       .setTimeout (min (2000 + (pv.attempts + 1) / 10 * 1000) 5000)] ∧
    (checkStatus videoId (.ok video) now pv).1.attempts = pv.attempts + 1 := by
  rw [checkStatus_pending _ _ _ _ h1 h2 h]
  exact ⟨rfl, rfl⟩

/-- C6, amended, at the round that starts with `attempts = 9`: the timer is set to
3000 ms. -/
theorem C6_delay_uses_incremented_count_witness :
    (checkStatus 42
      (.ok { id := 42, status := lit "processing", manimCode := [], error_message := none })
      0 { attempts := 9, lastErrorTime := 0 }).2 =
      [.getVideoDetail 42, .setTimeout 3000] ∧
    (checkStatus 42
      (.ok { id := 42, status := lit "processing", manimCode := [], error_message := none })
      0 { attempts := 9, lastErrorTime := 0 }).1.attempts = 10 :=
  C6_delay_uses_incremented_count 42
    { id := 42, status := lit "processing", manimCode := [], error_message := none } 0
    { attempts := 9, lastErrorTime := 0 } (by decide) (by decide) (by decide)

/-- C7 as stated fails: at attempt count 99 the interval is 5000 ms (the cap), not
4000 ms. -/
theorem C7_counterexample :
    interval 99 = 5000 ∧
    [0, 9, 10, 19, 20, 99, 100, 119].map interval ≠
      [2000, 2000, 3000, 3000, 4000, 4000, 5000, 5000] := by
  decide

/-- C7, amended: the delay a round sets depends on the attempt count alone, and for
attempt counts 0, 9, 10, 19, 20, 99, 100, 119 the interval is 2000, 2000, 3000, 3000,
4000, 5000, 5000, 5000 ms. -/
theorem C7_interval_table :
    [0, 9, 10, 19, 20, 99, 100, 119].map interval =
      [2000, 2000, 3000, 3000, 4000, 5000, 5000, 5000] ∧
    ∀ (videoId videoId' : Nat) (video video' : Video) (now now' : Int) (pv pv' : PollVars),
      video.status ≠ lit "completed" → video.status ≠ lit "failed" →
      video'.status ≠ lit "completed" → video'.status ≠ lit "failed" →
      pv.attempts = pv'.attempts →
      delays (checkStatus videoId (.ok video) now pv).2 =
        delays (checkStatus videoId' (.ok video') now' pv').2 := by
  refine ⟨by decide, ?_⟩
  intro videoId videoId' video video' now now' pv pv' h1 h2 h1' h2' ha
  by_cases h : pv.attempts + 1 < maxAttempts
  · rw [checkStatus_pending _ _ _ _ h1 h2 h, checkStatus_pending _ _ _ _ h1' h2' (ha ▸ h), ha]
    rfl
  · rw [checkStatus_exhausted _ _ _ _ h1 h2 h,
      checkStatus_exhausted _ _ _ _ h1' h2' (ha ▸ h)]
    rfl

theorem applyLog_rounds_append (st : HomeState) (videoId : Nat) (ds : List Nat)
    (rest : List Effect) :
    applyLog st (scheduledRounds videoId ds ++ rest) = applyLog st rest := by
  rw [applyLog_append, applyLog_scheduledRounds]

theorem requestCount_rounds_append (videoId : Nat) (ds : List Nat) (rest : List Effect) :
    requestCount (scheduledRounds videoId ds ++ rest) = ds.length + requestCount rest := by
  have := requestCount_scheduledRounds videoId ds
  simp only [requestCount] at this ⊢
  rw [List.countP_append, this]

theorem delays_rounds_append (videoId : Nat) (ds : List Nat) (rest : List Effect) :
    delays (scheduledRounds videoId ds ++ rest) = ds ++ delays rest := by
  have := delays_scheduledRounds videoId ds
  simp only [delays] at this ⊢
  rw [List.filterMap_append, this]

/-- The run whose first `n` rounds fetch a non-terminal status and whose round `n`
ends polling, for `n` below the budget. -/
theorem pollVideoStatus_pending_then (videoId : Nat) (fetch : Nat → Except ApiError Video)
    (clock : Nat → Int) (n : Nat) (hn : n < maxAttempts)
    (hpend : ∀ i, i < n → ∃ video, fetch i = .ok video ∧
      video.status ≠ lit "completed" ∧ video.status ≠ lit "failed")
    (tail : List Effect) (ht : Terminal tail)
    (hlast : (checkStatus videoId (fetch n) (clock n) { attempts := n, lastErrorTime := 0 }).2 =
      .getVideoDetail videoId :: tail) :
    pollVideoStatus videoId fetch clock =
      some ((checkStatus videoId (fetch n) (clock n) { attempts := n, lastErrorTime := 0 }).1,
        scheduledRounds videoId ((List.range n).map fun i => interval (i + 1)) ++
          .getVideoDetail videoId :: tail) := by
  unfold pollVideoStatus
  obtain ⟨fuel, hfuel⟩ : ∃ fuel, maxAttempts = n + (fuel + 1) := ⟨maxAttempts - n - 1, by omega⟩
  have hpend' : ∀ i, i < n → ∃ video, fetch (0 + i) = .ok video ∧
      video.status ≠ lit "completed" ∧ video.status ≠ lit "failed" := by
    intro i hi
    rw [Nat.zero_add]
    exact hpend i hi
  have := pollLoop_pending_rounds videoId fetch clock (fuel + 1) n 0
    { attempts := 0, lastErrorTime := 0 } hpend' (by simpa using hn)
  rw [← hfuel] at this
  rw [this]
  simp only [Nat.zero_add]
  rw [pollLoop_stop _ _ _ _ _ _ _ hlast ht, Option.map_some']
  simp only [hlast]

theorem filter_setters_scheduledRounds (videoId : Nat) (ds : List Nat) :
    (scheduledRounds videoId ds).filter
      (fun e => !e.isStatusRequest && (Effect.delay? e).isNone) = [] := by
  induction ds with
  | nil => rfl
  | cons d ds ih =>
    rw [scheduledRounds_cons, List.filter_cons_of_neg (by simp [Effect.isStatusRequest]),
      List.filter_cons_of_neg (by simp [Effect.delay?])]
    exact ih

theorem count_setLoading_scheduledRounds (videoId : Nat) (ds : List Nat) :
    (scheduledRounds videoId ds).count (.setLoading false) = 0 := by
  induction ds with
  | nil => rfl
  | cons d ds ih =>
    rw [scheduledRounds_cons]
    simp [List.count_cons, ih]

/-- C2: when every status request succeeds with a status that is neither
`completed` nor `failed`, polling issues exactly 120 status requests: each of the
first 119 rounds sets the timer for the next round, round 120 brings `attempts` to 120
and reports the timeout (`videoStatus` error, the timed-out message, loading false)
without setting a timer, so there is no 121st request. -/
theorem C2_always_processing_times_out (videoId : Nat) (fetch : Nat → Except ApiError Video)
    (clock : Nat → Int) (st : HomeState)
    (h : ∀ i, ∃ video, fetch i = .ok video ∧
      video.status ≠ lit "completed" ∧ video.status ≠ lit "failed") :
    ∃ pv log, pollVideoStatus videoId fetch clock = some (pv, log) ∧
      log = scheduledRounds videoId ((List.range 119).map fun i => interval (i + 1)) ++
        [.getVideoDetail videoId, .setVideoStatus (lit "error"), .setError msgTimeout,
         .setLoading false] ∧
      requestCount log = 120 ∧
      (delays log).length = 119 ∧
      pv.attempts = 120 ∧
      (applyLog st log).videoStatus = lit "error" ∧
      (applyLog st log).error = msgTimeout ∧
      (applyLog st log).loading = false := by
  obtain ⟨video, hv, h1, h2⟩ := h 119
  have hstep := checkStatus_exhausted videoId video (clock 119)
    { attempts := 119, lastErrorTime := 0 } h1 h2 (by decide)
  have hlast : (checkStatus videoId (fetch 119) (clock 119)
      { attempts := 119, lastErrorTime := 0 }).2 = .getVideoDetail videoId ::
        [.setVideoStatus (lit "error"), .setError msgTimeout, .setLoading false] := by
    rw [hv, hstep]
  have hrun := pollVideoStatus_pending_then videoId fetch clock 119 (by decide)
    (fun i _ => h i) _ Terminal.timeout hlast
  rw [hv, hstep] at hrun
  refine ⟨_, _, hrun, rfl, ?_, ?_, rfl, ?_, ?_, ?_⟩
  · rw [requestCount_rounds_append]; simp [requestCount, Effect.isStatusRequest]
  · rw [delays_rounds_append]; simp [delays, Effect.delay?]
  · rw [applyLog_rounds_append]; rfl
  · rw [applyLog_rounds_append]; rfl
  · rw [applyLog_rounds_append]; rfl

/-- C2 at the server that always answers `processing`. -/
theorem C2_always_processing_times_out_witness :
    ∃ pv log, pollVideoStatus 42
        (fun _ => .ok { id := 42, status := lit "processing", manimCode := [],
                        error_message := none }) (fun _ => 0) = some (pv, log) ∧
      log = scheduledRounds 42 ((List.range 119).map fun i => interval (i + 1)) ++
        [.getVideoDetail 42, .setVideoStatus (lit "error"), .setError msgTimeout,
         .setLoading false] ∧
      requestCount log = 120 ∧
      (delays log).length = 119 ∧
      pv.attempts = 120 ∧
      (applyLog HomeState.init log).videoStatus = lit "error" ∧
      (applyLog HomeState.init log).error = msgTimeout ∧
      (applyLog HomeState.init log).loading = false :=
  C2_always_processing_times_out 42 _ _ HomeState.init
    (fun _ => ⟨_, rfl, by decide, by decide⟩)

/-- C3: for `1 ≤ k ≤ 120`, when rounds `1..k-1` fetch a non-terminal status and round
`k` fetches a terminal one, polling issues exactly `k` requests and sets exactly `k-1`
timers; a `completed` round reports success (`videoStatus` completed, `currentVideo`
the fetched job, loading false); a `failed` round reports `videoStatus` error with the
server's `error_message`, or the generic text when that is absent or empty, and
loading false. -/
theorem C3_terminal_status_stops (videoId : Nat) (fetch : Nat → Except ApiError Video)
    (clock : Nat → Int) (st : HomeState) (k : Nat) (video : Video)
    (hk1 : 1 ≤ k) (hk : k ≤ 120)
    (hpend : ∀ i, i + 1 < k → ∃ v, fetch i = .ok v ∧
      v.status ≠ lit "completed" ∧ v.status ≠ lit "failed")
    (hlast : fetch (k - 1) = .ok video)
    (hterm : video.status = lit "completed" ∨ video.status = lit "failed") :
    ∃ pv log, pollVideoStatus videoId fetch clock = some (pv, log) ∧
      requestCount log = k ∧
      delays log = (List.range (k - 1)).map (fun i => interval (i + 1)) ∧
      (video.status = lit "completed" →
        log = scheduledRounds videoId ((List.range (k - 1)).map fun i => interval (i + 1)) ++
          [.getVideoDetail videoId, .setVideoStatus (lit "completed"),
           .setCurrentVideo (some video), .setSuccess msgDone, .setLoading false] ∧
        (applyLog st log).videoStatus = lit "completed" ∧
        (applyLog st log).currentVideo = some video ∧
        (applyLog st log).loading = false) ∧
      (video.status = lit "failed" →
        log = scheduledRounds videoId ((List.range (k - 1)).map fun i => interval (i + 1)) ++
          [.getVideoDetail videoId, .setVideoStatus (lit "error"),
           .setError (msgVideoFailed ++ orDefault video.error_message msgUnknown),
           .setLoading false] ∧
        (applyLog st log).videoStatus = lit "error" ∧
        (applyLog st log).error = msgVideoFailed ++
          (match video.error_message with
           | some m => if m = [] then msgUnknown else m
           | none => msgUnknown) ∧
        (applyLog st log).loading = false) := by
  have hn : k - 1 < maxAttempts := by unfold maxAttempts; omega
  have hpend' : ∀ i, i < k - 1 → ∃ v, fetch i = .ok v ∧
      v.status ≠ lit "completed" ∧ v.status ≠ lit "failed" :=
    fun i hi => hpend i (by omega)
  have hne : lit "failed" ≠ lit "completed" := by decide
  rcases hterm with hc | hf
  · have hstep := checkStatus_completed videoId video (clock (k - 1))
      { attempts := k - 1, lastErrorTime := 0 } hc
    have hrun := pollVideoStatus_pending_then videoId fetch clock (k - 1) hn hpend' _
      (Terminal.success video) (by rw [hlast, hstep])
    refine ⟨_, _, hrun, ?_, ?_, fun _ => ⟨rfl, ?_, ?_, ?_⟩, fun hf => ?_⟩
    · rw [requestCount_rounds_append]
      simp [requestCount, Effect.isStatusRequest]
      omega
    · rw [delays_rounds_append]; simp [delays, Effect.delay?]
    · rw [applyLog_rounds_append]; rfl
    · rw [applyLog_rounds_append]; rfl
    · rw [applyLog_rounds_append]; rfl
    · rw [hc] at hf; exact absurd hf.symm hne
  · have hstep := checkStatus_failed videoId video (clock (k - 1))
      { attempts := k - 1, lastErrorTime := 0 } hf
    have hrun := pollVideoStatus_pending_then videoId fetch clock (k - 1) hn hpend' _
      (Terminal.failure (orDefault video.error_message msgUnknown)) (by rw [hlast, hstep])
    refine ⟨_, _, hrun, ?_, ?_, fun hc => ?_, fun _ => ⟨rfl, ?_, ?_, ?_⟩⟩
    · rw [requestCount_rounds_append]
      simp [requestCount, Effect.isStatusRequest]
      omega
    · rw [delays_rounds_append]; simp [delays, Effect.delay?]
    · rw [hf] at hc; exact absurd hc hne
    · rw [applyLog_rounds_append]; rfl
    · rw [applyLog_rounds_append]; rfl
    · rw [applyLog_rounds_append]; rfl

/-- C3 at the run `processing`, `processing`, `completed` for job 42: the job is
delivered after exactly 3 requests and both timers, the one between rounds 1 and 2
included, are set to 2000 ms. -/
theorem C3_terminal_status_stops_witness :
    ∃ pv log, pollVideoStatus 42
        (fun i => if i < 2 then
            .ok { id := 42, status := lit "processing", manimCode := [],
                  error_message := none }
          else .ok { id := 42, status := lit "completed", manimCode := [],
                     error_message := none }) (fun _ => 0) = some (pv, log) ∧
      requestCount log = 3 ∧
      delays log = [2000, 2000] ∧
      (applyLog HomeState.init log).videoStatus = lit "completed" ∧
      (applyLog HomeState.init log).currentVideo =
        some { id := 42, status := lit "completed", manimCode := [], error_message := none } ∧
      (applyLog HomeState.init log).loading = false := by
  obtain ⟨pv, log, hrun, hreq, hdel, hc, _⟩ :=
    C3_terminal_status_stops 42
      (fun i => if i < 2 then
          .ok { id := 42, status := lit "processing", manimCode := [], error_message := none }
        else .ok { id := 42, status := lit "completed", manimCode := [],
                   error_message := none })
      (fun _ => 0) HomeState.init 3
      { id := 42, status := lit "completed", manimCode := [], error_message := none }
      (by decide) (by decide)
      (fun i hi => ⟨{ id := 42, status := lit "processing", manimCode := [],
                      error_message := none },
        by simp [show i < 2 by omega], by decide, by decide⟩)
      (by simp) (Or.inl rfl)
  obtain ⟨_, h1, h2, h3⟩ := hc rfl
  exact ⟨pv, log, hrun, hreq, hdel, h1, h2, h3⟩

/-- C4: whatever the status requests return and whatever the clock reads, one call
of `pollVideoStatus` ends after at most 120 status requests; its log is a sequence of
rounds that each only set the timer, followed by one last round that reports exactly
one terminal outcome (success, server failure, timeout or network failure), sets
loading to false and sets no timer; and a round that sets the timer leaves `attempts`
strictly larger than it found it. -/
theorem C4_one_terminal_outcome (videoId : Nat) (fetch : Nat → Except ApiError Video)
    (clock : Nat → Int) (st : HomeState) :
    (∃ pv ds tail,
      pollVideoStatus videoId fetch clock =
        some (pv, scheduledRounds videoId ds ++ .getVideoDetail videoId :: tail) ∧
      Terminal tail ∧
      requestCount (scheduledRounds videoId ds ++ .getVideoDetail videoId :: tail) =
        ds.length + 1 ∧
      requestCount (scheduledRounds videoId ds ++ .getVideoDetail videoId :: tail) ≤ 120 ∧
      delays (scheduledRounds videoId ds ++ .getVideoDetail videoId :: tail) = ds ∧
      (scheduledRounds videoId ds ++ .getVideoDetail videoId :: tail).filter
        (fun e => !e.isStatusRequest && (Effect.delay? e).isNone) = tail ∧
      (scheduledRounds videoId ds ++ .getVideoDetail videoId :: tail).count
        (.setLoading false) = 1 ∧
      (applyLog st (scheduledRounds videoId ds ++ .getVideoDetail videoId :: tail)).loading =
        false) ∧
    (∀ (res : Except ApiError Video) (now : Int) (pv : PollVars),
      rescheduled (checkStatus videoId res now pv).2 = true →
      pv.attempts < (checkStatus videoId res now pv).1.attempts) := by
  constructor
  · obtain ⟨pv, ds, tail, hrun, ht, hlen⟩ := pollLoop_total videoId fetch clock maxAttempts 0
      { attempts := 0, lastErrorTime := 0 } (by simp) (by decide)
    have hreq : requestCount (scheduledRounds videoId ds ++ .getVideoDetail videoId :: tail) =
        ds.length + 1 := by
      rw [requestCount_rounds_append]
      have := ht.requestCount
      simp only [requestCount] at this ⊢
      simp [List.countP_cons, Effect.isStatusRequest, this]
    refine ⟨pv, ds, tail, hrun, ht, hreq, ?_, ?_, ?_, ?_, ?_⟩
    · rw [hreq]; unfold maxAttempts at hlen; omega
    · rw [delays_rounds_append]
      have := ht.delays
      simp only [delays] at this ⊢
      simp [List.filterMap_cons, Effect.delay?, this]
    · rw [List.filter_append, filter_setters_scheduledRounds]
      cases ht <;> rfl
    · rw [List.count_append, count_setLoading_scheduledRounds]
      cases ht <;> rfl
    · rw [applyLog_rounds_append]
      cases ht <;> rfl
  · intro res now pv hres
    rcases checkStatus_shape videoId res now pv with ⟨d, _, hlt, _⟩ | ⟨tail, hlog, ht⟩
    · exact hlt
    · rw [hlog, ht.not_rescheduled] at hres
      exact absurd hres (by simp)

/-- The trimmed string is empty exactly when every code unit is white space. -/
theorem trim_eq_nil_iff (s : JSString) : trim s = [] ↔ ∀ c ∈ s, isWhiteSpace c = true := by
  unfold trim
  rw [List.reverse_eq_nil_iff, List.dropWhile_eq_nil_iff]
  constructor
  · intro h
    have hd : s.dropWhile isWhiteSpace = [] := by
      cases hs : s.dropWhile isWhiteSpace with
      | nil => rfl
      | cons c rest =>
        have hc : isWhiteSpace c = true := h c (by rw [hs]; simp)
        have hhead := List.head_dropWhile_not isWhiteSpace s (by rw [hs]; simp)
        simp only [hs, List.head_cons] at hhead
        rw [hc] at hhead
        exact absurd hhead (by simp)
    exact List.dropWhile_eq_nil_iff.mp hd
  · intro h
    rw [List.dropWhile_eq_nil_iff.mpr h]
    simp

/-- C8: for a prompt that is empty or all white space, `handleGenerateCode` only sets
the validation message: it makes no backend call and starts no poll, and every other
state cell (loading, videoStatus, generatedCode, currentVideo among them) keeps its
value. -/
theorem C8_blank_prompt_rejected (createVideo : VideoData → Except ApiError Video)
    (st : HomeState) (h : ∀ c ∈ st.prompt, isWhiteSpace c = true) :
    handleGenerateCode createVideo st = [.setError msgEmptyPrompt] ∧
    (handleGenerateCode createVideo st).filter Effect.isNetworkCall = [] ∧
    (handleGenerateCode createVideo st).filter Effect.isPollStart = [] ∧
    applyLog st (handleGenerateCode createVideo st) = { st with error := msgEmptyPrompt } := by
  have hlog : handleGenerateCode createVideo st = [.setError msgEmptyPrompt] := by
    unfold handleGenerateCode
    rw [if_pos ((trim_eq_nil_iff _).mpr h)]
  rw [hlog]
  exact ⟨rfl, rfl, rfl, rfl⟩

/-- C8 at the prompt made of a space, a tab and a line feed, with a backend that
would accept the job. -/
theorem C8_blank_prompt_rejected_witness :
    handleGenerateCode
        (fun _ => .ok { id := 42, status := lit "processing", manimCode := lit "code",
                        error_message := none })
        { HomeState.init with prompt := [0x20, 0x09, 0x0A] } = [.setError msgEmptyPrompt] ∧
    (handleGenerateCode
        (fun _ => .ok { id := 42, status := lit "processing", manimCode := lit "code",
                        error_message := none })
        { HomeState.init with prompt := [0x20, 0x09, 0x0A] }).filter Effect.isNetworkCall = [] ∧
    (handleGenerateCode
        (fun _ => .ok { id := 42, status := lit "processing", manimCode := lit "code",
                        error_message := none })
        { HomeState.init with prompt := [0x20, 0x09, 0x0A] }).filter Effect.isPollStart = [] ∧
    applyLog { HomeState.init with prompt := [0x20, 0x09, 0x0A] }
      (handleGenerateCode
        (fun _ => .ok { id := 42, status := lit "processing", manimCode := lit "code",
                        error_message := none })
        { HomeState.init with prompt := [0x20, 0x09, 0x0A] }) =
      { HomeState.init with prompt := [0x20, 0x09, 0x0A], error := msgEmptyPrompt } :=
  C8_blank_prompt_rejected _ { HomeState.init with prompt := [0x20, 0x09, 0x0A] } (by decide)

/-- C9: `handleCreateVideo` with empty `generatedCode` only sets the validation
message and calls nothing; otherwise its first backend call is the validation of the
generated code, the job-creation call with `{prompt, code, title}` is made exactly when
the validation call succeeds, and when validation fails no job is created, no poll is
started, `videoStatus` becomes error and loading false. -/
theorem C9_create_needs_validation (validateCode : JSString → Except ApiError Unit)
    (createVideo : VideoData → Except ApiError Video) (st : HomeState) :
    (st.generatedCode = [] →
      handleCreateVideo validateCode createVideo st = [.setError msgNoCode] ∧
      (handleCreateVideo validateCode createVideo st).filter Effect.isNetworkCall = [] ∧
      applyLog st (handleCreateVideo validateCode createVideo st) =
        { st with error := msgNoCode }) ∧
    (st.generatedCode ≠ [] →
      ((handleCreateVideo validateCode createVideo st).filter Effect.isNetworkCall).head? =
        some (.validateCode st.generatedCode) ∧
      ((∃ data, Effect.createVideo data ∈ handleCreateVideo validateCode createVideo st) ↔
        validateCode st.generatedCode = .ok ()) ∧
      (validateCode st.generatedCode = .ok () →
        (handleCreateVideo validateCode createVideo st).filter Effect.isNetworkCall =
          [.validateCode st.generatedCode,
           .createVideo { prompt := st.prompt, code := some st.generatedCode,
                          title := titleOf st.prompt }]) ∧
      (∀ e, validateCode st.generatedCode = .error e →
        (handleCreateVideo validateCode createVideo st).filter Effect.isNetworkCall =
          [.validateCode st.generatedCode] ∧
        (handleCreateVideo validateCode createVideo st).filter Effect.isPollStart = [] ∧
        (applyLog st (handleCreateVideo validateCode createVideo st)).videoStatus =
          lit "error" ∧
        (applyLog st (handleCreateVideo validateCode createVideo st)).loading = false)) := by
  constructor
  · intro h
    have hlog : handleCreateVideo validateCode createVideo st = [.setError msgNoCode] := by
      unfold handleCreateVideo
      rw [if_pos h]
    rw [hlog]
    exact ⟨rfl, rfl, rfl⟩
  · intro h
    unfold handleCreateVideo
    rw [if_neg h]
    cases hv : validateCode st.generatedCode with
    | error e =>
      refine ⟨rfl, ?_, ?_, ?_⟩
      · constructor
        · rintro ⟨data, hmem⟩
          simp [createCatch] at hmem
        · intro h'
          cases h'
      · intro h'
        cases h'
      · intro e' _
        exact ⟨rfl, rfl, rfl, rfl⟩
    | ok u =>
      have hmem : ∀ rest : List Effect, ∃ data, Effect.createVideo data ∈
          [Effect.setLoading true, Effect.setError [], Effect.setSuccess [],
            Effect.setVideoStatus (lit "generating"), Effect.validateCode st.generatedCode] ++
          Effect.createVideo { prompt := st.prompt, code := some st.generatedCode,
                               title := titleOf st.prompt } :: rest :=
        fun rest => ⟨{ prompt := st.prompt, code := some st.generatedCode,
                       title := titleOf st.prompt }, by simp⟩
      cases hc : createVideo { prompt := st.prompt, code := some st.generatedCode,
                               title := titleOf st.prompt } with
      | error e =>
        refine ⟨rfl, ?_, ?_, ?_⟩
        · exact ⟨fun _ => rfl, fun _ => by simpa only [hc] using hmem _⟩
        · intro _
          simp only [hc]
          rfl
        · intro e' h'
          cases h'
      | ok r =>
        refine ⟨rfl, ?_, ?_, ?_⟩
        · exact ⟨fun _ => rfl, fun _ => by simpa only [hc] using hmem _⟩
        · intro _
          simp only [hc]
          rfl
        · intro e' h'
          cases h'

/-- C9 at a state with generated code and a backend that rejects the validation
call: the only backend call is the validation, no poll starts, and the state ends
with `videoStatus` error and loading false. -/
theorem C9_create_needs_validation_witness :
    (handleCreateVideo (fun _ => .error { message := some (lit "invalid") })
        (fun _ => .ok { id := 42, status := lit "processing", manimCode := [],
                        error_message := none })
        { HomeState.init with prompt := lit "circle", generatedCode := lit "code" }).filter
      Effect.isNetworkCall = [.validateCode (lit "code")] ∧
    (handleCreateVideo (fun _ => .error { message := some (lit "invalid") })
        (fun _ => .ok { id := 42, status := lit "processing", manimCode := [],
                        error_message := none })
        { HomeState.init with prompt := lit "circle", generatedCode := lit "code" }).filter
      Effect.isPollStart = [] ∧
    (applyLog { HomeState.init with prompt := lit "circle", generatedCode := lit "code" }
      (handleCreateVideo (fun _ => .error { message := some (lit "invalid") })
        (fun _ => .ok { id := 42, status := lit "processing", manimCode := [],
                        error_message := none })
        { HomeState.init with prompt := lit "circle", generatedCode := lit "code" })).videoStatus =
      lit "error" ∧
    (applyLog { HomeState.init with prompt := lit "circle", generatedCode := lit "code" }
      (handleCreateVideo (fun _ => .error { message := some (lit "invalid") })
        (fun _ => .ok { id := 42, status := lit "processing", manimCode := [],
                        error_message := none })
        { HomeState.init with prompt := lit "circle", generatedCode := lit "code" })).loading =
      false :=
  ((C9_create_needs_validation (fun _ => .error { message := some (lit "invalid") })
      (fun _ => .ok { id := 42, status := lit "processing", manimCode := [],
                      error_message := none })
      { HomeState.init with prompt := lit "circle", generatedCode := lit "code" }).2
    (by decide)).2.2.2 _ rfl

/-- C10: for a prompt that is not all white space, `handleGenerateCode` makes
exactly one backend call, the job creation with `{prompt, title}`; when it succeeds
with job `r` the state holds `r` as current job, `r.manimCode` as generated code and
`videoStatus` processing, and polling is started exactly once, for `r.id`; when it
fails the state has `videoStatus` error, the error text ends with the failure's
message (the generic text when it has none), loading is false and no poll starts. -/
theorem C10_generate_creates_job_once (createVideo : VideoData → Except ApiError Video)
    (st : HomeState) (h : ¬ ∀ c ∈ st.prompt, isWhiteSpace c = true) :
    (handleGenerateCode createVideo st).filter Effect.isNetworkCall =
      [.createVideo { prompt := st.prompt, code := none, title := titleOf st.prompt }] ∧
    (∀ r, createVideo { prompt := st.prompt, code := none, title := titleOf st.prompt } =
        .ok r →
      (applyLog st (handleGenerateCode createVideo st)).currentVideo = some r ∧
      (applyLog st (handleGenerateCode createVideo st)).generatedCode = r.manimCode ∧
      (applyLog st (handleGenerateCode createVideo st)).videoStatus = lit "processing" ∧
      (handleGenerateCode createVideo st).filter Effect.isPollStart =
        [.pollVideoStatus r.id]) ∧
    (∀ e, createVideo { prompt := st.prompt, code := none, title := titleOf st.prompt } =
        .error e →
      (applyLog st (handleGenerateCode createVideo st)).videoStatus = lit "error" ∧
      (applyLog st (handleGenerateCode createVideo st)).error = msgGenerateFailed ++
        (match e.message with
         | some m => if m = [] then msgUnknown else m
         | none => msgUnknown) ∧
      (applyLog st (handleGenerateCode createVideo st)).loading = false ∧
      (handleGenerateCode createVideo st).filter Effect.isPollStart = []) := by
  have ht : trim st.prompt ≠ [] := fun ht => h ((trim_eq_nil_iff _).mp ht)
  have hlog : handleGenerateCode createVideo st =
      [.setLoading true, .setError [], .setSuccess [], .setGeneratedCode [],
       .setVideoStatus (lit "generating"),
       .createVideo { prompt := st.prompt, code := none, title := titleOf st.prompt }] ++
      match createVideo { prompt := st.prompt, code := none, title := titleOf st.prompt } with
      | .ok response =>
        [.setGeneratedCode response.manimCode, .setCurrentVideo (some response),
         .setVideoStatus (lit "processing"), .setSuccess msgTaskCreated,
         .pollVideoStatus response.id]
      | .error error => generateCatch error := by
    simp only [handleGenerateCode, if_neg ht]
  rw [hlog]
  cases hc : createVideo { prompt := st.prompt, code := none, title := titleOf st.prompt } with
  | error e =>
    refine ⟨rfl, ?_, ?_⟩
    · intro r h'
      cases h'
    · intro e' h'
      cases h'
      exact ⟨rfl, rfl, rfl, rfl⟩
  | ok r =>
    refine ⟨rfl, ?_, ?_⟩
    · intro r' h'
      cases h'
      exact ⟨rfl, rfl, rfl, rfl⟩
    · intro e' h'
      cases h'

/-- C10 at the prompt `draw a circle` with a backend that answers job 42. -/
theorem C10_generate_creates_job_once_witness :
    (handleGenerateCode
        (fun _ => .ok { id := 42, status := lit "processing", manimCode := lit "code",
                        error_message := none })
        { HomeState.init with prompt := lit "draw a circle" }).filter Effect.isNetworkCall =
      [.createVideo { prompt := lit "draw a circle", code := none,
                      title := titleOf (lit "draw a circle") }] ∧
    (applyLog { HomeState.init with prompt := lit "draw a circle" }
      (handleGenerateCode
        (fun _ => .ok { id := 42, status := lit "processing", manimCode := lit "code",
                        error_message := none })
        { HomeState.init with prompt := lit "draw a circle" })).currentVideo =
      some { id := 42, status := lit "processing", manimCode := lit "code",
             error_message := none } ∧
    (applyLog { HomeState.init with prompt := lit "draw a circle" }
      (handleGenerateCode
        (fun _ => .ok { id := 42, status := lit "processing", manimCode := lit "code",
                        error_message := none })
        { HomeState.init with prompt := lit "draw a circle" })).generatedCode = lit "code" ∧
    (handleGenerateCode
        (fun _ => .ok { id := 42, status := lit "processing", manimCode := lit "code",
                        error_message := none })
        { HomeState.init with prompt := lit "draw a circle" }).filter Effect.isPollStart =
      [.pollVideoStatus 42] := by
  have h := C10_generate_creates_job_once
    (fun _ => .ok { id := 42, status := lit "processing", manimCode := lit "code",
                    error_message := none })
    { HomeState.init with prompt := lit "draw a circle" } (by decide)
  obtain ⟨h1, h2, _, h4⟩ := h.2.1 _ rfl
  exact ⟨h.1, h1, h2, h4⟩

theorem errorAttempts_qualifying {now : Int} {pv : PollVars}
    (h : now - pv.lastErrorTime < 30000) : errorAttempts now pv = pv.attempts + 4 := by
  unfold errorAttempts
  rw [if_pos h]

theorem errorAttempts_first {now : Int} {pv : PollVars}
    (h : ¬ now - pv.lastErrorTime < 30000) : errorAttempts now pv = pv.attempts + 1 := by
  unfold errorAttempts
  rw [if_neg h]

/-- Rounds whose request is rejected less than 30 s after the previous rejection,
below the budget: each adds 4 to `attempts` and sets the timer to the error delay. -/
theorem pollLoop_error_rounds (videoId : Nat) (fetch : Nat → Except ApiError Video)
    (clock : Nat → Int) (fuel : Nat) :
    ∀ (n round : Nat) (pv : PollVars),
      (∀ i, i < n → ∃ e, fetch (round + i) = .error e) →
      (∀ i, i < n → clock (round + i) -
        (if i = 0 then pv.lastErrorTime else clock (round + i - 1)) < 30000) →
      pv.attempts + 4 * n < maxAttempts →
      pollLoop videoId fetch clock (n + fuel) round pv =
        (pollLoop videoId fetch clock fuel (round + n)
          { attempts := pv.attempts + 4 * n,
            lastErrorTime := if n = 0 then pv.lastErrorTime else clock (round + n - 1) }).map
          fun r => (r.1, scheduledRounds videoId (List.replicate n errorRetryDelay) ++ r.2) := by
  intro n
  induction n with
  | zero =>
    intro round pv _ _ _
    simp [scheduledRounds]
  | succ n ih =>
    intro round pv hf hq hb
    obtain ⟨e, he⟩ := hf 0 (Nat.succ_pos n)
    have hq0 : clock round - pv.lastErrorTime < 30000 := by
      simpa using hq 0 (Nat.succ_pos n)
    rw [Nat.add_zero] at he
    have hatt := errorAttempts_qualifying hq0
    have hstep := checkStatus_error_retry videoId e (clock round) pv (by rw [hatt]; omega)
    rw [hatt] at hstep
    have hlog : (checkStatus videoId (fetch round) (clock round) pv).2 =
        [.getVideoDetail videoId, .setTimeout errorRetryDelay] := by
      rw [he, hstep]
    have e1 : n + 1 + fuel = (n + fuel) + 1 := by omega
    rw [e1, pollLoop_continue _ _ _ _ _ _ _ hlog, he, hstep]
    have hf' : ∀ i, i < n → ∃ e, fetch (round + 1 + i) = .error e := by
      intro i hi
      have := hf (i + 1) (by omega)
      rwa [show round + (i + 1) = round + 1 + i by omega] at this
    have hq' : ∀ i, i < n → clock (round + 1 + i) -
        (if i = 0 then (PollVars.mk (pv.attempts + 4) (clock round)).lastErrorTime
          else clock (round + 1 + i - 1)) < 30000 := by
      intro i hi
      have := hq (i + 1) (by omega)
      rw [if_neg (Nat.succ_ne_zero i)] at this
      rw [show round + (i + 1) = round + 1 + i by omega] at this
      by_cases hi0 : i = 0
      · subst hi0
        simpa using this
      · rw [if_neg hi0]
        exact this
    rw [ih (round + 1) _ hf' hq' (by simp; omega)]
    simp only [Option.map_map]
    have e2 : round + 1 + n = round + (n + 1) := by omega
    have e3 : pv.attempts + 4 + 4 * n = pv.attempts + 4 * (n + 1) := by omega
    have e4 : (if n + 1 = 0 then pv.lastErrorTime else clock (round + (n + 1) - 1)) =
        clock (round + n) := by
      rw [if_neg (Nat.succ_ne_zero n)]
      rfl
    have e5 : (if n = 0 then (PollVars.mk (pv.attempts + 4) (clock round)).lastErrorTime
        else clock (round + (n + 1) - 1)) = clock (round + n) := by
      by_cases hn0 : n = 0
      · subst hn0; simp
      · rw [if_neg hn0]; rfl
    simp only [e2, e3, e4, e5]
    rfl


theorem varsAfter_sustained_errors (videoId : Nat) (fetch : Nat → Except ApiError Video)
    (clock : Nat → Int) (herr : ∀ i, ∃ e, fetch i = .error e)
    (hfirst : 30000 ≤ clock 0) (hnext : ∀ i, clock (i + 1) - clock i < 30000) :
    ∀ i, varsAfter videoId fetch clock (i + 1) =
      { attempts := 1 + 4 * i, lastErrorTime := clock i } := by
  intro i
  induction i with
  | zero =>
    obtain ⟨e, he⟩ := herr 0
    have h0 : ¬ clock 0 - (PollVars.mk 0 0).lastErrorTime < 30000 := by
      show ¬ clock 0 - 0 < 30000
      omega
    have hatt := errorAttempts_first h0
    show (checkStatus videoId (fetch 0) (clock 0) { attempts := 0, lastErrorTime := 0 }).1 = _
    rw [he, checkStatus_error_retry _ _ _ _ (by rw [hatt]; show 0 + 1 < maxAttempts; decide),
      hatt]
  | succ i ih =>
    obtain ⟨e, he⟩ := herr (i + 1)
    have hq : clock (i + 1) - (PollVars.mk (1 + 4 * i) (clock i)).lastErrorTime < 30000 :=
      hnext i
    have hatt := errorAttempts_qualifying hq
    show (checkStatus videoId (fetch (i + 1)) (clock (i + 1))
      (varsAfter videoId fetch clock (i + 1))).1 = _
    rw [ih, he]
    by_cases hlt : errorAttempts (clock (i + 1)) (PollVars.mk (1 + 4 * i) (clock i)) < maxAttempts
    · rw [checkStatus_error_retry _ _ _ _ hlt, hatt]
      show PollVars.mk (1 + 4 * i + 4) (clock (i + 1)) = PollVars.mk (1 + 4 * (i + 1)) _
      rw [show 1 + 4 * i + 4 = 1 + 4 * (i + 1) by omega]
    · rw [checkStatus_error_stop _ _ _ _ hlt, hatt]
      show PollVars.mk (1 + 4 * i + 4) (clock (i + 1)) = PollVars.mk (1 + 4 * (i + 1)) _
      rw [show 1 + 4 * i + 4 = 1 + 4 * (i + 1) by omega]

/-- C18: when every status request is rejected, the first rejection is read at a
clock of at least 30000 ms and each later one less than 30000 ms after the one
before, `attempts` is `1 + 4 * (i - 1)` after the `i`-th rejection, every later
rejection adds exactly 4, and polling reports the network failure after exactly 31
requests with `attempts = 121`, the 30 timers in between all set to 5000 ms. -/
theorem C18_sustained_errors_budget (videoId : Nat) (fetch : Nat → Except ApiError Video)
    (clock : Nat → Int) (st : HomeState) (herr : ∀ i, ∃ e, fetch i = .error e)
    (hfirst : 30000 ≤ clock 0) (hnext : ∀ i, clock (i + 1) - clock i < 30000) :
    (∀ i, 1 ≤ i → i ≤ 31 →
      (varsAfter videoId fetch clock i).attempts = 1 + 4 * (i - 1)) ∧
    (∀ i, 1 ≤ i → i < 31 → (varsAfter videoId fetch clock (i + 1)).attempts =
      (varsAfter videoId fetch clock i).attempts + 4) ∧
    ∃ pv log, pollVideoStatus videoId fetch clock = some (pv, log) ∧
      pv = varsAfter videoId fetch clock 31 ∧
      pv.attempts = 121 ∧
      log = scheduledRounds videoId (List.replicate 30 5000) ++
        [.getVideoDetail videoId, .setVideoStatus (lit "error"), .setError msgNetwork,
         .setLoading false] ∧
      requestCount log = 31 ∧
      delays log = List.replicate 30 5000 ∧
      (applyLog st log).videoStatus = lit "error" ∧
      (applyLog st log).error = msgNetwork ∧
      (applyLog st log).loading = false := by
  have hvars := varsAfter_sustained_errors videoId fetch clock herr hfirst hnext
  refine ⟨?_, ?_, ?_⟩
  · intro i hi _
    obtain ⟨j, rfl⟩ : ∃ j, i = j + 1 := ⟨i - 1, by omega⟩
    rw [hvars j]
    simp
  · intro i hi _
    obtain ⟨j, rfl⟩ : ∃ j, i = j + 1 := ⟨i - 1, by omega⟩
    rw [hvars (j + 1), hvars j]
    show 1 + 4 * (j + 1) = 1 + 4 * j + 4
    omega
  · -- round 0: the first rejection
    obtain ⟨e0, he0⟩ := herr 0
    have h0 : ¬ clock 0 - (PollVars.mk 0 0).lastErrorTime < 30000 := by
      show ¬ clock 0 - 0 < 30000
      omega
    have hatt0 := errorAttempts_first h0
    have hstep0 := checkStatus_error_retry videoId e0 (clock 0) (PollVars.mk 0 0)
      (by rw [hatt0]; show 0 + 1 < maxAttempts; decide)
    rw [hatt0] at hstep0
    have hlog0 : (checkStatus videoId (fetch 0) (clock 0) (PollVars.mk 0 0)).2 =
        [.getVideoDetail videoId, .setTimeout errorRetryDelay] := by
      rw [he0, hstep0]
    -- rounds 1..29: 29 qualifying rejections
    have hmid := pollLoop_error_rounds videoId fetch clock 90 29 1 (PollVars.mk 1 (clock 0))
      (fun i _ => herr (1 + i))
      (fun i _ => by
        by_cases hi0 : i = 0
        · subst hi0; simpa using hnext 0
        · rw [if_neg hi0]
          have := hnext (1 + i - 1)
          rwa [show 1 + i - 1 + 1 = 1 + i by omega] at this)
      (by show 1 + 4 * 29 < maxAttempts; decide)
    -- round 30: the rejection that exhausts the budget
    obtain ⟨e30, he30⟩ := herr 30
    have hq30 : clock 30 - (PollVars.mk 117 (clock 29)).lastErrorTime < 30000 := hnext 29
    have hatt30 := errorAttempts_qualifying hq30
    have hstep30 := checkStatus_error_stop videoId e30 (clock 30) (PollVars.mk 117 (clock 29))
      (by rw [hatt30]; show ¬ 117 + 4 < maxAttempts; decide)
    rw [hatt30] at hstep30
    have hlog30 : (checkStatus videoId (fetch 30) (clock 30) (PollVars.mk 117 (clock 29))).2 =
        .getVideoDetail videoId ::
          [.setVideoStatus (lit "error"), .setError msgNetwork, .setLoading false] := by
      rw [he30, hstep30]
    have hlast := pollLoop_stop videoId fetch clock 89 30 (PollVars.mk 117 (clock 29)) _ hlog30
      Terminal.network
    have hrun : pollVideoStatus videoId fetch clock =
        some (PollVars.mk 121 (clock 30),
          scheduledRounds videoId (List.replicate 30 5000) ++
            [.getVideoDetail videoId, .setVideoStatus (lit "error"), .setError msgNetwork,
             .setLoading false]) := by
      unfold pollVideoStatus
      show pollLoop videoId fetch clock (119 + 1) 0 (PollVars.mk 0 0) = _
      rw [pollLoop_continue _ _ _ _ _ _ _ hlog0, he0, hstep0]
      show Option.map _ (pollLoop videoId fetch clock (29 + 90) 1 (PollVars.mk 1 (clock 0))) = _
      rw [hmid]
      show Option.map _ (Option.map _
        (pollLoop videoId fetch clock (89 + 1) 30 (PollVars.mk 117 (clock 29)))) = _
      rw [hlast, he30, hstep30]
      rfl
    refine ⟨_, _, hrun, ?_, rfl, rfl, ?_, ?_, ?_, ?_, ?_⟩
    · rw [hvars 30]
    · rw [requestCount_rounds_append]; simp [requestCount, Effect.isStatusRequest]
    · rw [delays_rounds_append]; simp [delays, Effect.delay?]
    · rw [applyLog_rounds_append]; rfl
    · rw [applyLog_rounds_append]; rfl
    · rw [applyLog_rounds_append]; rfl

/-- C18 at a server that rejects every status request, a first reading of 30000 ms
and one reading every 5000 ms after it. -/
theorem C18_sustained_errors_budget_witness :
    ∃ pv log, pollVideoStatus 42 (fun _ => .error { message := none })
        (fun i => 30000 + 5000 * (i : Int)) = some (pv, log) ∧
      pv.attempts = 121 ∧
      requestCount log = 31 ∧
      delays log = List.replicate 30 5000 ∧
      (applyLog HomeState.init log).error = msgNetwork ∧
      (applyLog HomeState.init log).loading = false := by
  obtain ⟨_, _, pv, log, hrun, _, hatt, _, hreq, hdel, _, herr, hload⟩ :=
    C18_sustained_errors_budget 42 (fun _ => .error { message := none })
      (fun i => 30000 + 5000 * (i : Int)) HomeState.init
      (fun _ => ⟨_, rfl⟩) (by simp) (fun i => by push_cast; omega)
  exact ⟨pv, log, hrun, hatt, hreq, hdel, herr, hload⟩

set_option maxRecDepth 100000 in
/-- The timers of 119 rounds that fetch a non-terminal status add up to 538000 ms. -/
theorem sum_pending_delays :
    ((List.range 119).map fun i => interval (i + 1)).sum = 538000 := by
  decide

/-- C16, evaluated: in the run where every status request returns `processing`,
the 119 timers set before the timeout is reported add up to 538000 ms (8 min 58 s),
which is more than the 240000 ms (4 minutes) that the comment on `maxAttempts` and the
timeout message announce. -/
theorem C16_total_wait_exceeds_four_minutes :
    ∃ pv log, pollVideoStatus 42
        (fun _ => .ok { id := 42, status := lit "processing", manimCode := [],
                        error_message := none }) (fun _ => 0) = some (pv, log) ∧
      requestCount log = 120 ∧
      (applyLog HomeState.init log).error = msgTimeout ∧
      (delays log).sum = 538000 ∧
      ¬ (delays log).sum ≤ 240000 := by
  have hstep := checkStatus_exhausted 42
    { id := 42, status := lit "processing", manimCode := [], error_message := none } 0
    { attempts := 119, lastErrorTime := 0 } (by decide) (by decide) (by decide)
  have hrun := pollVideoStatus_pending_then 42
    (fun _ => .ok { id := 42, status := lit "processing", manimCode := [],
                    error_message := none }) (fun _ => 0) 119 (by decide)
    (fun _ _ => ⟨_, rfl, by decide, by decide⟩) _ Terminal.timeout
    (by rw [hstep])
  have hdel : delays (scheduledRounds 42 ((List.range 119).map fun i => interval (i + 1)) ++
      [.getVideoDetail 42, .setVideoStatus (lit "error"), .setError msgTimeout,
       .setLoading false]) = (List.range 119).map fun i => interval (i + 1) := by
    rw [delays_rounds_append]; simp [delays, Effect.delay?]
  have hsum := sum_pending_delays
  refine ⟨_, _, hrun, ?_, ?_, ?_, ?_⟩
  · rw [requestCount_rounds_append]; simp [requestCount, Effect.isStatusRequest]
  · rw [applyLog_rounds_append]; rfl
  · rw [hdel, hsum]
  · rw [hdel, hsum]; decide

theorem Terminal.applyLog_loading {tail : List Effect} (h : Terminal tail) (st : HomeState)
    (videoId : Nat) : (applyLog st (.getVideoDetail videoId :: tail)).loading = false := by
  cases h <;> rfl

theorem Terminal.applyLog_videoStatus {tail : List Effect} (h : Terminal tail) (st : HomeState)
    (videoId : Nat) :
    (applyLog st (.getVideoDetail videoId :: tail)).videoStatus = lit "completed" ∨
    (applyLog st (.getVideoDetail videoId :: tail)).videoStatus = lit "error" := by
  cases h
  · left; rfl
  · right; rfl
  · right; rfl
  · right; rfl

/-- C17: whatever the request (its URL plays no role, so login and register are
included), the request interceptor sets the `Authorization` header to `Bearer `
followed by the stored token when `localStorage` holds a non-empty token, and returns
the configuration unchanged when no token or an empty one is stored. -/
theorem C17_bearer_header (storage : Storage) (config : RequestConfig) :
    (∀ token, storage.token = some token → token ≠ [] →
      requestInterceptor storage config =
        { config with authorization := some (lit "Bearer " ++ token) }) ∧
    (storage.token = none ∨ storage.token = some [] →
      requestInterceptor storage config = config) ∧
    (requestInterceptor storage config).url = config.url := by
  refine ⟨?_, ?_, ?_⟩
  · intro token ht hne
    simp [requestInterceptor, ht, hne]
  · intro h
    rcases h with h | h <;> simp [requestInterceptor, h]
  · unfold requestInterceptor
    split
    · split <;> rfl
    · rfl

/-- C17 at a login request with the token `t1` stored, and at the same request with
nothing stored. -/
theorem C17_bearer_header_witness :
    requestInterceptor { token := some (lit "t1"), user := none }
        { url := lit "/auth/login", authorization := none } =
      { url := lit "/auth/login", authorization := some (lit "Bearer t1") } ∧
    requestInterceptor { token := none, user := none }
        { url := lit "/auth/login", authorization := none } =
      { url := lit "/auth/login", authorization := none } :=
  ⟨(C17_bearer_header { token := some (lit "t1"), user := none }
      { url := lit "/auth/login", authorization := none }).1 (lit "t1") rfl (by decide),
   (C17_bearer_header { token := none, user := none }
      { url := lit "/auth/login", authorization := none }).2.1 (Or.inl rfl)⟩

theorem responseInterceptorError_unauthorized (storage : Storage) (error : AxiosError)
    (h : error.response.map ErrorResponse.status = some 401) :
    responseInterceptorError storage error =
      { storage := { token := none, user := none }, href := some (lit "/login"),
        reason := rejectionReason error } := by
  unfold responseInterceptorError
  rw [if_pos h]

theorem responseInterceptorError_other (storage : Storage) (error : AxiosError)
    (h : error.response.map ErrorResponse.status ≠ some 401) :
    responseInterceptorError storage error =
      { storage := storage, href := none, reason := rejectionReason error } := by
  unfold responseInterceptorError
  rw [if_neg h]

theorem responseInterceptorError_reason (storage : Storage) (error : AxiosError) :
    (responseInterceptorError storage error).reason = rejectionReason error := by
  unfold responseInterceptorError
  split <;> rfl

/-- A document load over an empty storage leaves the user absent. -/
theorem pageLoad_empty (stringify : User → JSString)
    (parse : JSString → Except Unit (Option User))
    (profile : Except AxiosError (Option User)) :
    pageLoad stringify parse profile { token := none, user := none } =
      { storage := { token := none, user := none }, user := none, loading := false,
        href := none } := by
  rfl

/-- C14: on a response with status 401 the error handler of the response
interceptor removes the stored token and user and assigns the login URL, and the
document load that follows leaves the in-memory user null; the call is rejected with
the body of the response, or with the axios error when the body is missing; on any
other failure the two stored entries are left as they were. -/
theorem C14_unauthorized_clears_session (storage : Storage) (error : AxiosError)
    (stringify : User → JSString) (parse : JSString → Except Unit (Option User))
    (profile : Except AxiosError (Option User)) :
    (error.response.map ErrorResponse.status = some 401 →
      (responseInterceptorError storage error).storage = { token := none, user := none } ∧
      (responseInterceptorError storage error).href = some (lit "/login") ∧
      (pageLoad stringify parse profile
        (responseInterceptorError storage error).storage).user = none) ∧
    (responseInterceptorError storage error).reason =
      (match error.response with
       | some r =>
         match r.data with
         | some data => data
         | none => { message := error.message }
       | none => { message := error.message }) ∧
    (error.response.map ErrorResponse.status ≠ some 401 →
      (responseInterceptorError storage error).storage = storage ∧
      (responseInterceptorError storage error).href = none) := by
  refine ⟨?_, responseInterceptorError_reason storage error, ?_⟩
  · intro h
    rw [responseInterceptorError_unauthorized storage error h]
    exact ⟨rfl, rfl, rfl⟩
  · intro h
    rw [responseInterceptorError_other storage error h]
    exact ⟨rfl, rfl⟩

/-- C14 at a 401 answer while `t1` and a user are stored, and at a 500 answer. -/
theorem C14_unauthorized_clears_session_witness :
    (responseInterceptorError { token := some (lit "t1"), user := some (lit "u") }
      { message := some (lit "Request failed with status code 401"),
        response := some { status := 401, data := some { message := some (lit "expired") } }
      }).storage = { token := none, user := none } ∧
    (responseInterceptorError { token := some (lit "t1"), user := some (lit "u") }
      { message := some (lit "Request failed with status code 500"),
        response := some { status := 500, data := none } }).storage =
      { token := some (lit "t1"), user := some (lit "u") } :=
  ⟨((C14_unauthorized_clears_session { token := some (lit "t1"), user := some (lit "u") }
      { message := some (lit "Request failed with status code 401"),
        response := some { status := 401, data := some { message := some (lit "expired") } } }
      exampleStringify exampleParse (.ok none)).1 rfl).1,
   ((C14_unauthorized_clears_session { token := some (lit "t1"), user := some (lit "u") }
      { message := some (lit "Request failed with status code 500"),
        response := some { status := 500, data := none } }
      exampleStringify exampleParse (.ok none)).2.2 (by decide)).1⟩

theorem Session.reject_other (s : Session) (error : AxiosError)
    (h : error.response.map ErrorResponse.status ≠ some 401) :
    s.reject error = (s, rejectionReason error) := by
  unfold Session.reject
  rw [responseInterceptorError_other s.storage error h]

theorem Session.reject_unauthorized (s : Session) (error : AxiosError)
    (h : error.response.map ErrorResponse.status = some 401) :
    s.reject error =
      ({ s with storage := { token := none, user := none }, href := some (lit "/login") },
        rejectionReason error) := by
  unfold Session.reject
  rw [responseInterceptorError_unauthorized s.storage error h]

theorem login_error (stringify : User → JSString) (error : AxiosError) (s : Session) :
    login stringify (.error error) s =
      ((s.reject error).1,
        { success := false,
          error := some (orDefault (s.reject error).2.message msgLoginFailed) }) := by
  rfl

/-- C11 as stated fails: with `t0` and a user stored, a login that the server
answers with status 401 returns a failure with the server's message and leaves the
storage empty, so the session has been mutated. -/
theorem C11_counterexample :
    (login exampleStringify
      (.error { message := some (lit "Request failed with status code 401"),
                response := some { status := 401,
                                   data := some { message := some (lit "bad credentials") } } })
      { storage := { token := some (lit "t0"), user := some (lit "u0") },
        user := some { id := 7, username := lit "bob", email := [] },
        loading := false, href := none }).2 =
      { success := false, error := some (lit "bad credentials") } ∧
    (login exampleStringify
      (.error { message := some (lit "Request failed with status code 401"),
                response := some { status := 401,
                                   data := some { message := some (lit "bad credentials") } } })
      { storage := { token := some (lit "t0"), user := some (lit "u0") },
        user := some { id := 7, username := lit "bob", email := [] },
        loading := false, href := none }).1.storage = { token := none, user := none } ∧
    (login exampleStringify
      (.error { message := some (lit "Request failed with status code 401"),
                response := some { status := 401,
                                   data := some { message := some (lit "bad credentials") } } })
      { storage := { token := some (lit "t0"), user := some (lit "u0") },
        user := some { id := 7, username := lit "bob", email := [] },
        loading := false, href := none }).1.storage ≠
      { token := some (lit "t0"), user := some (lit "u0") } := by
  decide

/-- C11, amended: `login` always returns a result (it is a total function: the
`try` covers its whole body). A response with a non-empty token and a user stores the
token and the serialised user, sets the in-memory user and returns success; a response
that is absent or has no token, an empty token or no user returns the
malformed-response failure and leaves the session as it was; a failed call returns a
failure with the message of the rejection value, or the generic text when it has none,
and leaves the in-memory user as it was; the session is left as it was when the status
is not 401, and on status 401 the response interceptor has emptied the storage. -/
theorem C11_login_contract (stringify : User → JSString) (s : Session)
    (res : Except AxiosError AuthResponse) :
    (∀ token userData, res = .ok (.body (some token) (some userData)) → token ≠ [] →
      login stringify res s =
        ({ s with storage := { token := some token, user := some (stringify userData) },
                  user := some userData },
          { success := true, error := none })) ∧
    ((res = .ok .nullish ∨ ∃ token userData, res = .ok (.body token userData) ∧
        (token = none ∨ token = some [] ∨ userData = none)) →
      login stringify res s = (s, { success := false, error := some msgMalformed })) ∧
    (∀ error, res = .error error →
      (login stringify res s).2 =
        { success := false,
          error := some (match (rejectionReason error).message with
                         | some m => if m = [] then msgLoginFailed else m
                         | none => msgLoginFailed) } ∧
      (login stringify res s).1.user = s.user ∧
      (error.response.map ErrorResponse.status ≠ some 401 →
        (login stringify res s).1 = s) ∧
      (error.response.map ErrorResponse.status = some 401 →
        (login stringify res s).1.storage = { token := none, user := none })) := by
  refine ⟨?_, ?_, ?_⟩
  · intro token userData hres hne
    subst hres
    simp [login, hne]
  · intro h
    rcases h with h | ⟨token, userData, h, hbad⟩
    · subst h; rfl
    · subst h
      rcases hbad with hb | hb | hb
      · subst hb; rfl
      · subst hb
        cases userData <;> rfl
      · subst hb
        cases token <;> rfl
  · intro error hres
    subst hres
    rw [login_error]
    by_cases h : error.response.map ErrorResponse.status = some 401
    · rw [Session.reject_unauthorized s error h]
      exact ⟨rfl, rfl, fun h' => absurd h h', fun _ => rfl⟩
    · rw [Session.reject_other s error h]
      exact ⟨rfl, rfl, fun _ => rfl, fun h' => absurd h' h⟩

/-- C11 at the answer with token `t1` and the user alice (id 1): the token `t1` is
stored and the result is a success. -/
theorem C11_login_contract_witness :
    (login exampleStringify
      (.ok (.body (some (lit "t1"))
        (some { id := 1, username := lit "alice", email := [] })))
      (AuthProvider.init { token := none, user := none })).1.storage.token =
      some (lit "t1") ∧
    (login exampleStringify
      (.ok (.body (some (lit "t1"))
        (some { id := 1, username := lit "alice", email := [] })))
      (AuthProvider.init { token := none, user := none })).1.user =
      some { id := 1, username := lit "alice", email := [] } ∧
    (login exampleStringify
      (.ok (.body (some (lit "t1"))
        (some { id := 1, username := lit "alice", email := [] })))
      (AuthProvider.init { token := none, user := none })).2 =
      { success := true, error := none } := by
  have h := (C11_login_contract exampleStringify
    (AuthProvider.init { token := none, user := none })
    (.ok (.body (some (lit "t1"))
      (some { id := 1, username := lit "alice", email := [] })))).1 _ _ rfl (by decide)
  rw [h]
  exact ⟨rfl, rfl, rfl⟩

/-- C12, evaluated: for the registration answer that has a user and no token,
`register` stores the text `undefined` as the token, stores the user, sets the
in-memory user and returns success, where `login` on the same answer returns the
malformed-response failure and leaves the session as it was. -/
theorem C12_register_accepts_missing_token :
    register exampleStringify (lit "TypeError")
        (.ok (.body none (some { id := 1, username := lit "alice", email := [] })))
        (AuthProvider.init { token := none, user := none }) =
      ({ storage := { token := some (lit "undefined"),
                      user := some (exampleStringify
                        { id := 1, username := lit "alice", email := [] }) },
         user := some { id := 1, username := lit "alice", email := [] },
         loading := true, href := none },
        { success := true, error := none }) ∧
    login exampleStringify
        (.ok (.body none (some { id := 1, username := lit "alice", email := [] })))
        (AuthProvider.init { token := none, user := none }) =
      (AuthProvider.init { token := none, user := none },
        { success := false, error := some msgMalformed }) := by
  decide

theorem truthy_storedText (stringify : User → JSString) (hs : ∀ u, stringify u ≠ [])
    (userData : Option User) : truthy (some (storedText (userData.map stringify))) = true := by
  cases userData with
  | none =>
    show truthy (some (lit "undefined")) = true
    decide
  | some u => simp [truthy, storedText, hs u]

theorem truthy_some {s : JSString} (h : s ≠ []) : truthy (some s) = true := by
  simp [truthy, h]

theorem truthy_none : truthy none = false := rfl

theorem step_profileResolved (stringify : User → JSString) (typeError : JSString)
    (r : Running) (userData : Option User) (hp : r.pending = true) :
    r.step stringify typeError (.profileResolved userData) =
      { session := profileResolved stringify userData r.session, pending := false } := by
  simp [Running.step, hp]

theorem step_profileResolved_idle (stringify : User → JSString) (typeError : JSString)
    (r : Running) (userData : Option User) (hp : ¬ r.pending = true) :
    r.step stringify typeError (.profileResolved userData) = r := by
  simp [Running.step, hp]

theorem step_profileRejected (stringify : User → JSString) (typeError : JSString)
    (r : Running) (error : AxiosError) (hp : r.pending = true) :
    r.step stringify typeError (.profileRejected error) =
      { session := profileRejected error r.session, pending := false } := by
  simp [Running.step, hp]

theorem step_profileRejected_idle (stringify : User → JSString) (typeError : JSString)
    (r : Running) (error : AxiosError) (hp : ¬ r.pending = true) :
    r.step stringify typeError (.profileRejected error) = r := by
  simp [Running.step, hp]

theorem load_inv (parse : JSString → Except Unit (Option User)) (storage : Storage)
    (h : truthy storage.token = truthy storage.user) : (load parse storage).Inv := by
  unfold Running.Inv load mountEffect AuthProvider.init Session.Paired
  dsimp only
  split
  · rename_i token savedUser ht hu
    split
    · rename_i hfalsy
      refine ⟨⟨h, (fun hu' => by cases hu')⟩, (fun hp => by cases hp), rfl⟩
    · rename_i htruthy
      have hne : token ≠ [] ∧ savedUser ≠ [] := by
        constructor
        · intro h0; exact htruthy (Or.inl h0)
        · intro h0; exact htruthy (Or.inr h0)
      split
      · refine ⟨⟨rfl, (fun hu' => by cases hu')⟩, (fun hp => by cases hp), rfl⟩
      · refine ⟨⟨h, fun _ => ?_⟩, fun _ => ?_, rfl⟩
        · rw [ht, hu]; exact ⟨truthy_some hne.1, truthy_some hne.2⟩
        · rw [ht]; exact truthy_some hne.1
  · refine ⟨⟨h, (fun hu' => by cases hu')⟩, (fun hp => by cases hp), rfl⟩

theorem reject_cases (s : Session) (error : AxiosError) :
    (s.reject error).1 = s ∨
    (s.reject error).1 =
      { s with storage := { token := none, user := none }, href := some (lit "/login") } := by
  by_cases h401 : error.response.map ErrorResponse.status = some 401
  · right; rw [Session.reject_unauthorized s error h401]
  · left; rw [Session.reject_other s error h401]

/-- An admissible event keeps the storage paired. -/
theorem step_storage (stringify : User → JSString) (hs : ∀ u, stringify u ≠ [])
    (typeError : JSString) (r : Running) (ev : SessionEvent) (h : r.Inv)
    (hadm : ev.admissible r.pending = true) :
    truthy (r.step stringify typeError ev).session.storage.token =
      truthy (r.step stringify typeError ev).session.storage.user := by
  obtain ⟨⟨hst, _⟩, hpend, _⟩ := h
  cases ev with
  | profileResolved userData =>
    by_cases hp : r.pending = true
    · rw [step_profileResolved stringify typeError r userData hp]
      show truthy r.session.storage.token = truthy (some (storedText (userData.map stringify)))
      rw [hpend hp, truthy_storedText stringify hs]
    · rw [step_profileResolved_idle stringify typeError r userData hp]
      exact hst
  | profileRejected error =>
    by_cases hp : r.pending = true
    · rw [step_profileRejected stringify typeError r error hp]
      rfl
    · rw [step_profileRejected_idle stringify typeError r error hp]
      exact hst
  | login res =>
    cases res with
    | error error =>
      show truthy (r.session.reject error).1.storage.token =
        truthy (r.session.reject error).1.storage.user
      rcases reject_cases r.session error with h' | h'
      · rw [h']; exact hst
      · rw [h']
    | ok response =>
      simp only [Running.step, login]
      split
      · split
        · exact hst
        · rename_i token userData _ hne
          show truthy (some token) = truthy (some (stringify userData))
          rw [truthy_some hne, truthy_some (hs userData)]
      · exact hst
      · rename_i heq; cases heq
  | register res =>
    cases res with
    | error error =>
      show truthy (r.session.reject error).1.storage.token =
        truthy (r.session.reject error).1.storage.user
      rcases reject_cases r.session error with h' | h'
      · rw [h']; exact hst
      · rw [h']
    | ok response =>
      cases response with
      | nullish => simp [SessionEvent.admissible] at hadm
      | body token newUser =>
        cases token with
        | none => simp [SessionEvent.admissible] at hadm
        | some token =>
          cases newUser with
          | none => simp [SessionEvent.admissible] at hadm
          | some newUser =>
            have hne : token ≠ [] := by simpa [SessionEvent.admissible] using hadm
            show truthy (some token) = truthy (some (stringify newUser))
            rw [truthy_some hne, truthy_some (hs newUser)]
  | logout => rfl
  | failedCall error =>
    show truthy (r.session.reject error).1.storage.token =
      truthy (r.session.reject error).1.storage.user
    rcases reject_cases r.session error with h' | h'
    · rw [h']; exact hst
    · rw [h']

theorem reject_inv_of_href_none (r : Running) (error : AxiosError) (h : r.Inv)
    (hh : (r.session.reject error).1.href = none) :
    (Running.mk (r.session.reject error).1 r.pending).Inv := by
  rcases reject_cases r.session error with h' | h'
  · rw [h']; exact h
  · rw [h'] at hh; cases hh

/-- An admissible event that assigns no URL keeps the invariant. -/
theorem session_step_inv (stringify : User → JSString) (hs : ∀ u, stringify u ≠ [])
    (typeError : JSString) (r : Running) (ev : SessionEvent) (h : r.Inv)
    (hadm : ev.admissible r.pending = true)
    (hh : (r.step stringify typeError ev).session.href = none) :
    (r.step stringify typeError ev).Inv := by
  have h0 := h
  obtain ⟨⟨hst, hmem⟩, hpend, hhref⟩ := h
  cases ev with
  | profileResolved userData =>
    by_cases hp : r.pending = true
    · rw [step_profileResolved stringify typeError r userData hp]
      refine ⟨⟨?_, fun _ => ⟨?_, ?_⟩⟩, (fun hp' => by cases hp'), hhref⟩
      · show truthy r.session.storage.token =
          truthy (some (storedText (userData.map stringify)))
        rw [hpend hp, truthy_storedText stringify hs]
      · exact hpend hp
      · exact truthy_storedText stringify hs userData
    · rw [step_profileResolved_idle stringify typeError r userData hp]
      exact h0
  | profileRejected error =>
    by_cases hp : r.pending = true
    · rw [step_profileRejected stringify typeError r error hp] at hh ⊢
      exact ⟨⟨rfl, (fun hu => by cases hu)⟩, (fun hp' => by cases hp'), hh⟩
    · rw [step_profileRejected_idle stringify typeError r error hp]
      exact h0
  | login res =>
    cases res with
    | error error => exact reject_inv_of_href_none r error h0 hh
    | ok response =>
      simp only [Running.step, login] at hh ⊢
      split
      · split
        · exact h0
        · rename_i token userData _ hne
          refine ⟨⟨?_, fun _ => ⟨truthy_some hne, truthy_some (hs userData)⟩⟩,
            fun _ => truthy_some hne, hhref⟩
          show truthy (some token) = truthy (some (stringify userData))
          rw [truthy_some hne, truthy_some (hs userData)]
      · exact h0
      · rename_i heq; cases heq
  | register res =>
    cases res with
    | error error => exact reject_inv_of_href_none r error h0 hh
    | ok response =>
      cases response with
      | nullish => simp [SessionEvent.admissible] at hadm
      | body token newUser =>
        cases token with
        | none => simp [SessionEvent.admissible] at hadm
        | some token =>
          cases newUser with
          | none => simp [SessionEvent.admissible] at hadm
          | some newUser =>
            have hne : token ≠ [] := by simpa [SessionEvent.admissible] using hadm
            refine ⟨⟨?_, fun _ => ⟨truthy_some hne, truthy_some (hs newUser)⟩⟩,
              fun _ => truthy_some hne, hhref⟩
            show truthy (some token) = truthy (some (stringify newUser))
            rw [truthy_some hne, truthy_some (hs newUser)]
  | logout =>
    have hp : r.pending = false := by simpa [SessionEvent.admissible] using hadm
    exact ⟨⟨rfl, (fun hu => by cases hu)⟩, (fun hp' => by
      have hp'' : r.pending = true := hp'
      rw [hp] at hp''
      cases hp''), hhref⟩
  | failedCall error => exact reject_inv_of_href_none r error h0 hh

/-- An admissible event, with the document load it may trigger, keeps the
invariant. -/
theorem next_inv (stringify : User → JSString) (hs : ∀ u, stringify u ≠ [])
    (parse : JSString → Except Unit (Option User)) (typeError : JSString) (r : Running)
    (ev : SessionEvent) (h : r.Inv) (hadm : ev.admissible r.pending = true) :
    (r.next stringify parse typeError ev).Inv := by
  unfold Running.next
  split
  · exact load_inv parse _ (step_storage stringify hs typeError r ev h hadm)
  · rename_i hh
    exact session_step_inv stringify hs typeError r ev h hadm hh

theorem runEvents_inv (stringify : User → JSString) (hs : ∀ u, stringify u ≠ [])
    (parse : JSString → Except Unit (Option User)) (typeError : JSString)
    (events : List SessionEvent) :
    ∀ r : Running, r.Inv → admissibleRun stringify parse typeError r events = true →
      (runEvents stringify parse typeError r events).Inv := by
  induction events with
  | nil => intro r h _; exact h
  | cons ev events ih =>
    intro r h hadm
    simp only [admissibleRun, Bool.and_eq_true] at hadm
    exact ih _ (next_inv stringify hs parse typeError r ev h hadm.1) hadm.2

/-- C13 as stated fails, in three ways. (1) Over a storage that holds the token
`t1` and no user, the mount effect does nothing, so the storage keeps a credential
without a profile. (2) Over a storage that holds `t1` and alice, `logout` called while
the `getProfile` call of the mount effect is in flight empties the storage, and the
`.then` callback then stores a profile and sets the in-memory user with no credential
stored. (3) `register` answered with an empty token and a user stores the empty token,
which no reader takes for a credential, next to the profile and the in-memory user. -/
theorem C13_counterexample :
    ((load exampleParse { token := some (lit "t1"), user := none }).pending = false ∧
     (load exampleParse { token := some (lit "t1"), user := none }).session.storage =
       { token := some (lit "t1"), user := none } ∧
     ¬ (load exampleParse { token := some (lit "t1"), user := none }).session.Paired) ∧
    ((load exampleParse
        { token := some (lit "t1"),
          user := some (exampleStringify { id := 1, username := lit "alice", email := [] })
        }).pending = true ∧
     (runEvents exampleStringify exampleParse (lit "TypeError")
        (load exampleParse
          { token := some (lit "t1"),
            user := some (exampleStringify { id := 1, username := lit "alice", email := [] }) })
        [.logout,
         .profileResolved (some { id := 1, username := lit "alice", email := [] })]).session =
       { storage := { token := none,
                      user := some (exampleStringify
                        { id := 1, username := lit "alice", email := [] }) },
         user := some { id := 1, username := lit "alice", email := [] },
         loading := false, href := none } ∧
     ¬ (runEvents exampleStringify exampleParse (lit "TypeError")
        (load exampleParse
          { token := some (lit "t1"),
            user := some (exampleStringify { id := 1, username := lit "alice", email := [] }) })
        [.logout,
         .profileResolved (some { id := 1, username := lit "alice", email := [] })]
        ).session.Paired) ∧
    ((runEvents exampleStringify exampleParse (lit "TypeError")
        (load exampleParse { token := none, user := none })
        [.register (.ok (.body (some [])
          (some { id := 1, username := lit "alice", email := [] })))]).session =
       { storage := { token := some [],
                      user := some (exampleStringify
                        { id := 1, username := lit "alice", email := [] }) },
         user := some { id := 1, username := lit "alice", email := [] },
         loading := false, href := none } ∧
     requestInterceptor
        (runEvents exampleStringify exampleParse (lit "TypeError")
          (load exampleParse { token := none, user := none })
          [.register (.ok (.body (some [])
            (some { id := 1, username := lit "alice", email := [] })))]).session.storage
        { url := lit "/user/profile", authorization := none } =
       { url := lit "/user/profile", authorization := none } ∧
     ¬ (runEvents exampleStringify exampleParse (lit "TypeError")
        (load exampleParse { token := none, user := none })
        [.register (.ok (.body (some [])
          (some { id := 1, username := lit "alice", email := [] })))]).session.Paired) := by
  decide

/-- C13, amended: starting from a document loaded over a storage that holds both
a credential and a profile or neither, after every sequence of events of the session
manager (the callbacks of the validation request of restore, login, register
answered with a non-empty token and a user or rejected, logout, a failed call of any
endpoint with the document load a 401 triggers) in which logout is not called while
the validation request of restore is in flight, the storage holds both a credential
and a profile or neither, and the in-memory user is present only if both are stored.
The text `JSON.stringify` gives for a user record is taken to be non-empty. -/
theorem C13_pairing_preserved (stringify : User → JSString) (hs : ∀ u, stringify u ≠ [])
    (parse : JSString → Except Unit (Option User)) (typeError : JSString)
    (storage : Storage) (hst : truthy storage.token = truthy storage.user)
    (events : List SessionEvent)
    (hadm : admissibleRun stringify parse typeError (load parse storage) events = true) :
    (runEvents stringify parse typeError (load parse storage) events).session.Paired :=
  (runEvents_inv stringify hs parse typeError events (load parse storage)
    (load_inv parse storage hst) hadm).1

/-- C13, amended, on a run over a storage that holds `t1` and alice: bob logs in
while the validation request is in flight, the request resolves, then logout, a call
answered 401, and a registration answered with `t3` and carol. -/
theorem C13_pairing_preserved_witness :
    (runEvents exampleStringify exampleParse (lit "TypeError")
      (load exampleParse
        { token := some (lit "t1"),
          user := some (exampleStringify { id := 1, username := lit "alice", email := [] }) })
      [.login (.ok (.body (some (lit "t2"))
          (some { id := 2, username := lit "bob", email := [] }))),
       .profileResolved (some { id := 1, username := lit "alice", email := [] }),
       .logout,
       .failedCall (AxiosError.mk none (some (ErrorResponse.mk 401 none))),
       .register (.ok (.body (some (lit "t3"))
          (some { id := 3, username := lit "carol", email := [] })))]).session.Paired :=
  C13_pairing_preserved exampleStringify (fun _ => List.cons_ne_nil _ _) exampleParse
    (lit "TypeError") _ (by decide) _ (by decide)

theorem trim_ne_nil_of_generateEnabled {st : HomeState} (h : generateEnabled st = true) :
    trim st.prompt ≠ [] := by
  simp [generateEnabled] at h
  exact h.2

theorem code_ne_nil_of_createEnabled {st : HomeState} (h : createEnabled st = true) :
    st.generatedCode ≠ [] := by
  simp [createEnabled] at h
  exact h.1

theorem handleGenerateCode_ok (createVideo : VideoData → Except ApiError Video)
    (st : HomeState) (ht : trim st.prompt ≠ []) (r : Video)
    (hc : createVideo { prompt := st.prompt, code := none, title := titleOf st.prompt } =
      .ok r) :
    handleGenerateCode createVideo st =
      [.setLoading true, .setError [], .setSuccess [], .setGeneratedCode [],
       .setVideoStatus (lit "generating"),
       .createVideo { prompt := st.prompt, code := none, title := titleOf st.prompt },
       .setGeneratedCode r.manimCode, .setCurrentVideo (some r),
       .setVideoStatus (lit "processing"), .setSuccess msgTaskCreated,
       .pollVideoStatus r.id] := by
  simp [handleGenerateCode, ht, hc]

theorem handleGenerateCode_error (createVideo : VideoData → Except ApiError Video)
    (st : HomeState) (ht : trim st.prompt ≠ []) (e : ApiError)
    (hc : createVideo { prompt := st.prompt, code := none, title := titleOf st.prompt } =
      .error e) :
    handleGenerateCode createVideo st =
      [.setLoading true, .setError [], .setSuccess [], .setGeneratedCode [],
       .setVideoStatus (lit "generating"),
       .createVideo { prompt := st.prompt, code := none, title := titleOf st.prompt },
       .setError (msgGenerateFailed ++ orDefault e.message msgUnknown),
       .setVideoStatus (lit "error"), .setLoading false] := by
  simp [handleGenerateCode, ht, hc, generateCatch]

theorem handleCreateVideo_invalid (validateCode : JSString → Except ApiError Unit)
    (createVideo : VideoData → Except ApiError Video) (st : HomeState)
    (hg : st.generatedCode ≠ []) (e : ApiError)
    (hv : validateCode st.generatedCode = .error e) :
    handleCreateVideo validateCode createVideo st =
      [.setLoading true, .setError [], .setSuccess [], .setVideoStatus (lit "generating"),
       .validateCode st.generatedCode,
       .setError (msgCreateFailed ++ orDefault e.message msgUnknown),
       .setVideoStatus (lit "error"), .setLoading false] := by
  simp [handleCreateVideo, hg, hv, createCatch]

theorem handleCreateVideo_ok (validateCode : JSString → Except ApiError Unit)
    (createVideo : VideoData → Except ApiError Video) (st : HomeState)
    (hg : st.generatedCode ≠ []) (u : Unit) (hv : validateCode st.generatedCode = .ok u)
    (r : Video)
    (hc : createVideo { prompt := st.prompt, code := some st.generatedCode,
                        title := titleOf st.prompt } = .ok r) :
    handleCreateVideo validateCode createVideo st =
      [.setLoading true, .setError [], .setSuccess [], .setVideoStatus (lit "generating"),
       .validateCode st.generatedCode,
       .createVideo { prompt := st.prompt, code := some st.generatedCode,
                      title := titleOf st.prompt },
       .setCurrentVideo (some r), .setVideoStatus (lit "processing"),
       .setSuccess msgTaskCreated, .pollVideoStatus r.id] := by
  simp [handleCreateVideo, hg, hv, hc]

theorem handleCreateVideo_error (validateCode : JSString → Except ApiError Unit)
    (createVideo : VideoData → Except ApiError Video) (st : HomeState)
    (hg : st.generatedCode ≠ []) (u : Unit) (hv : validateCode st.generatedCode = .ok u)
    (e : ApiError)
    (hc : createVideo { prompt := st.prompt, code := some st.generatedCode,
                        title := titleOf st.prompt } = .error e) :
    handleCreateVideo validateCode createVideo st =
      [.setLoading true, .setError [], .setSuccess [], .setVideoStatus (lit "generating"),
       .validateCode st.generatedCode,
       .createVideo { prompt := st.prompt, code := some st.generatedCode,
                      title := titleOf st.prompt },
       .setError (msgCreateFailed ++ orDefault e.message msgUnknown),
       .setVideoStatus (lit "error"), .setLoading false] := by
  simp [handleCreateVideo, hg, hv, hc, createCatch]

/-- A submission that can fire starts at most one poll; when it starts one it
leaves `loading` true and `videoStatus` `processing`. -/
theorem generate_starts (createVideo : VideoData → Except ApiError Video) (st : HomeState)
    (h : generateEnabled st = true) :
    (startedPolls (handleGenerateCode createVideo st)).length ≤ 1 ∧
    (startedPolls (handleGenerateCode createVideo st) ≠ [] →
      (applyLog st (handleGenerateCode createVideo st)).loading = true ∧
      (applyLog st (handleGenerateCode createVideo st)).videoStatus = lit "processing") ∧
    ((applyLog st (handleGenerateCode createVideo st)).videoStatus = lit "error" →
      (applyLog st (handleGenerateCode createVideo st)).loading = false) := by
  have ht := trim_ne_nil_of_generateEnabled h
  cases hc : createVideo { prompt := st.prompt, code := none, title := titleOf st.prompt } with
  | ok r =>
    rw [handleGenerateCode_ok createVideo st ht r hc]
    exact ⟨Nat.le_refl 1, fun _ => ⟨rfl, rfl⟩, fun he => absurd (show lit "processing" = lit "error" from he) (by decide)⟩
  | error e =>
    rw [handleGenerateCode_error createVideo st ht e hc]
    exact ⟨Nat.zero_le 1, fun hne => absurd rfl hne, fun _ => rfl⟩

theorem create_starts (validateCode : JSString → Except ApiError Unit)
    (createVideo : VideoData → Except ApiError Video) (st : HomeState)
    (h : createEnabled st = true) :
    (startedPolls (handleCreateVideo validateCode createVideo st)).length ≤ 1 ∧
    (startedPolls (handleCreateVideo validateCode createVideo st) ≠ [] →
      (applyLog st (handleCreateVideo validateCode createVideo st)).loading = true ∧
      (applyLog st (handleCreateVideo validateCode createVideo st)).videoStatus =
        lit "processing") ∧
    ((applyLog st (handleCreateVideo validateCode createVideo st)).videoStatus = lit "error" →
      (applyLog st (handleCreateVideo validateCode createVideo st)).loading = false) := by
  have hg := code_ne_nil_of_createEnabled h
  cases hv : validateCode st.generatedCode with
  | error e =>
    rw [handleCreateVideo_invalid validateCode createVideo st hg e hv]
    exact ⟨Nat.zero_le 1, fun hne => absurd rfl hne, fun _ => rfl⟩
  | ok u =>
    cases hc : createVideo { prompt := st.prompt, code := some st.generatedCode,
                             title := titleOf st.prompt } with
    | ok r =>
      rw [handleCreateVideo_ok validateCode createVideo st hg u hv r hc]
      exact ⟨Nat.le_refl 1, fun _ => ⟨rfl, rfl⟩, fun he => absurd (show lit "processing" = lit "error" from he) (by decide)⟩
    | error e =>
      rw [handleCreateVideo_error validateCode createVideo st hg u hv e hc]
      exact ⟨Nat.zero_le 1, fun hne => absurd rfl hne, fun _ => rfl⟩

theorem Component.Inv.polls_nil_of_not_loading {c : Component} (h : c.Inv)
    (hl : c.ui.loading = false) : c.polls = [] := by
  by_contra hne
  have := (h.2.1 hne).1
  rw [hl] at this
  cases this

theorem Component.Inv.polls_nil_of_error {c : Component} (h : c.Inv)
    (hs : c.ui.videoStatus = lit "error") : c.polls = [] := by
  by_contra hne
  have := (h.2.1 hne).2
  rw [hs] at this
  exact absurd this (by decide)

theorem loading_false_of_generateEnabled {st : HomeState} (h : generateEnabled st = true) :
    st.loading = false := by
  simp [generateEnabled] at h
  exact h.1

theorem loading_false_of_createEnabled {st : HomeState} (h : createEnabled st = true) :
    st.loading = false := by
  simp [createEnabled] at h
  exact h.2.1.1

theorem error_of_resetEnabled {st : HomeState} (h : resetEnabled st = true) :
    st.videoStatus = lit "error" := by
  simpa [resetEnabled] using h

theorem Component.step_typePrompt (c : Component) (v : JSString) :
    c.step (.typePrompt v) =
      if promptEnabled c.ui then { c with ui := applyLog c.ui [.setPrompt v] } else c := rfl

theorem Component.step_clickGenerate (c : Component)
    (createVideo : VideoData → Except ApiError Video) :
    c.step (.clickGenerate createVideo) =
      if generateEnabled c.ui then
        { ui := applyLog c.ui (handleGenerateCode createVideo c.ui),
          polls := c.polls ++ startedPolls (handleGenerateCode createVideo c.ui) }
      else c := rfl

theorem Component.step_clickCreate (c : Component)
    (validateCode : JSString → Except ApiError Unit)
    (createVideo : VideoData → Except ApiError Video) :
    c.step (.clickCreate validateCode createVideo) =
      if createEnabled c.ui then
        { ui := applyLog c.ui (handleCreateVideo validateCode createVideo c.ui),
          polls := c.polls ++ startedPolls (handleCreateVideo validateCode createVideo c.ui) }
      else c := rfl

theorem Component.step_clickReset (c : Component) :
    c.step .clickReset =
      if resetEnabled c.ui then { c with ui := applyLog c.ui handleReset } else c := rfl

theorem Component.step_pollRound_none (c : Component) (i : Nat)
    (res : Except ApiError Video) (now : Int) (hp : c.polls[i]? = none) :
    c.step (.pollRound i res now) = c := by
  simp [Component.step, hp]

theorem Component.step_pollRound_some (c : Component) (i : Nat)
    (res : Except ApiError Video) (now : Int) (p : Poll) (hp : c.polls[i]? = some p) :
    c.step (.pollRound i res now) =
      { ui := applyLog c.ui (checkStatus p.videoId res now p.vars).2,
        polls :=
          if rescheduled (checkStatus p.videoId res now p.vars).2 then
            c.polls.set i { p with vars := (checkStatus p.videoId res now p.vars).1 }
          else c.polls.eraseIdx i } := by
  simp [Component.step, hp]

/-- Every event keeps the invariant of the component. -/
theorem Component.step_inv (c : Component) (ev : HomeEvent) (h : c.Inv) : (c.step ev).Inv := by
  cases ev with
  | typePrompt v =>
    rw [Component.step_typePrompt]
    by_cases he : promptEnabled c.ui = true
    · rw [if_pos he]
      exact ⟨h.1, fun hne => h.2.1 hne, fun hs => h.2.2 hs⟩
    · rw [if_neg he]; exact h
  | clickGenerate createVideo =>
    rw [Component.step_clickGenerate]
    by_cases he : generateEnabled c.ui = true
    · rw [if_pos he]
      have hnil := h.polls_nil_of_not_loading (loading_false_of_generateEnabled he)
      have hs := generate_starts createVideo c.ui he
      unfold Component.Inv
      simp only [hnil, List.nil_append]
      exact hs
    · rw [if_neg he]; exact h
  | clickCreate validateCode createVideo =>
    rw [Component.step_clickCreate]
    by_cases he : createEnabled c.ui = true
    · rw [if_pos he]
      have hnil := h.polls_nil_of_not_loading (loading_false_of_createEnabled he)
      have hs := create_starts validateCode createVideo c.ui he
      unfold Component.Inv
      simp only [hnil, List.nil_append]
      exact hs
    · rw [if_neg he]; exact h
  | clickReset =>
    rw [Component.step_clickReset]
    by_cases he : resetEnabled c.ui = true
    · rw [if_pos he]
      have hnil := h.polls_nil_of_error (error_of_resetEnabled he)
      unfold Component.Inv
      simp only [hnil]
      exact ⟨Nat.zero_le 1, fun hne => absurd rfl hne, fun hs => absurd (show lit "idle" = lit "error" from hs) (by decide)⟩
    · rw [if_neg he]; exact h
  | pollRound i res now =>
    cases hp : c.polls[i]? with
    | none => rw [Component.step_pollRound_none c i res now hp]; exact h
    | some p =>
      rw [Component.step_pollRound_some c i res now p hp]
      have hi : i < c.polls.length := by
        rcases Nat.lt_or_ge i c.polls.length with hlt | hge
        · exact hlt
        · rw [List.getElem?_eq_none hge] at hp; cases hp
      have hne : c.polls ≠ [] := by
        intro h0; rw [h0] at hi; cases hi
      rcases checkStatus_shape p.videoId res now p.vars with ⟨d, hlog, _, _⟩ | ⟨tail, hlog, ht⟩
      · have hres : rescheduled (checkStatus p.videoId res now p.vars).2 = true := by
          rw [hlog]; rfl
        rw [if_pos hres, hlog]
        exact ⟨by rw [List.length_set]; exact h.1, fun _ => h.2.1 hne, fun hs => h.2.2 hs⟩
      · have hres : ¬ rescheduled (checkStatus p.videoId res now p.vars).2 = true := by
          rw [hlog, ht.not_rescheduled]; simp
        rw [if_neg hres]
        have hlen : (c.polls.eraseIdx i).length = 0 := by
          rw [List.length_eraseIdx, if_pos hi]
          have := h.1
          omega
        have hnil : c.polls.eraseIdx i = [] := List.length_eq_zero.mp hlen
        rw [hnil, hlog]
        exact ⟨Nat.zero_le 1, fun hne' => absurd rfl hne',
          fun _ => ht.applyLog_loading c.ui p.videoId⟩

theorem Component.run_inv (events : List HomeEvent) :
    ∀ c : Component, c.Inv → (c.run events).Inv := by
  induction events with
  | nil => intro c h; exact h
  | cons ev events ih =>
    intro c h
    exact ih _ (c.step_inv ev h)

theorem Component.init_inv : Component.init.Inv :=
  ⟨Nat.zero_le 1, fun hne => absurd rfl hne, fun _ => rfl⟩

/-- Rounds of polls change nothing when no poll is left. -/
theorem Component.run_rounds_of_no_polls (events : List HomeEvent)
    (hev : ∀ ev ∈ events, ev.isPollRound = true) :
    ∀ c : Component, c.polls = [] → c.run events = c := by
  induction events with
  | nil => intro c _; rfl
  | cons ev events ih =>
    intro c hc
    have hstep : c.step ev = c := by
      cases ev with
      | pollRound i res now =>
        exact Component.step_pollRound_none c i res now (by rw [hc]; rfl)
      | typePrompt v => exact absurd (hev _ (List.mem_cons_self _ _)) (by simp [HomeEvent.isPollRound])
      | clickGenerate cv => exact absurd (hev _ (List.mem_cons_self _ _)) (by simp [HomeEvent.isPollRound])
      | clickCreate vc cv => exact absurd (hev _ (List.mem_cons_self _ _)) (by simp [HomeEvent.isPollRound])
      | clickReset => exact absurd (hev _ (List.mem_cons_self _ _)) (by simp [HomeEvent.isPollRound])
    show Component.run (c.step ev) events = c
    rw [hstep]
    exact ih (fun ev' hmem => hev ev' (List.mem_cons_of_mem _ hmem)) c hc

theorem beforeAnswer_generate (createVideo : VideoData → Except ApiError Video)
    (st : HomeState) (h : generateEnabled st = true) :
    beforeAnswer st (handleGenerateCode createVideo st) =
      { st with loading := true, error := [], success := [], generatedCode := [],
                videoStatus := lit "generating" } := by
  have ht := trim_ne_nil_of_generateEnabled h
  cases hc : createVideo { prompt := st.prompt, code := none, title := titleOf st.prompt } with
  | ok r => rw [handleGenerateCode_ok createVideo st ht r hc]; rfl
  | error e => rw [handleGenerateCode_error createVideo st ht e hc]; rfl

theorem beforeAnswer_create (validateCode : JSString → Except ApiError Unit)
    (createVideo : VideoData → Except ApiError Video) (st : HomeState)
    (h : createEnabled st = true) :
    beforeAnswer st (handleCreateVideo validateCode createVideo st) =
      { st with loading := true, error := [], success := [],
                videoStatus := lit "generating" } := by
  have hg := code_ne_nil_of_createEnabled h
  cases hv : validateCode st.generatedCode with
  | error e => rw [handleCreateVideo_invalid validateCode createVideo st hg e hv]; rfl
  | ok u =>
    cases hc : createVideo { prompt := st.prompt, code := some st.generatedCode,
                             title := titleOf st.prompt } with
    | ok r => rw [handleCreateVideo_ok validateCode createVideo st hg u hv r hc]; rfl
    | error e => rw [handleCreateVideo_error validateCode createVideo st hg u hv e hc]; rfl

/-- While `loading` is true and `videoStatus` is `generating`, no control fires. -/
theorem quiet_of_generating (st : HomeState) (hl : st.loading = true)
    (hs : st.videoStatus = lit "generating") :
    promptEnabled st = false ∧ generateEnabled st = false ∧ createEnabled st = false ∧
    resetEnabled st = false := by
  refine ⟨?_, ?_, ?_, ?_⟩
  · simp [promptEnabled, hl]
  · simp [generateEnabled, hl]
  · simp [createEnabled, hl]
  · rw [resetEnabled, hs]; decide

/-- C15: in every state the mounted component reaches, at most one poll has not
ended and it keeps `loading` true and `videoStatus` `processing`; so when the reset
button can fire no poll is left: `handleReset` returns the state to its initial idle
values with no current job and no generated code, and no round of an earlier job
resolves afterwards, the state stays exactly as reset left it. A submission can fire
only when no poll is left either, so the only poll after it is the one it started;
and between its click and the answer of the backend no control can fire. -/
theorem C15_no_stale_round (events : List HomeEvent) (c : Component)
    (hc : c = Component.init.run events) :
    (c.polls.length ≤ 1 ∧
      (c.polls ≠ [] → c.ui.loading = true ∧ c.ui.videoStatus = lit "processing")) ∧
    (resetEnabled c.ui = true →
      c.polls = [] ∧
      (c.step .clickReset).polls = [] ∧
      (c.step .clickReset).ui = applyLog c.ui handleReset ∧
      (c.step .clickReset).ui = HomeState.init ∧
      ∀ rounds : List HomeEvent, (∀ ev ∈ rounds, ev.isPollRound = true) →
        ((c.step .clickReset).run rounds).ui = (c.step .clickReset).ui) ∧
    (∀ createVideo, generateEnabled c.ui = true →
      c.polls = [] ∧
      (c.step (.clickGenerate createVideo)).polls =
        startedPolls (handleGenerateCode createVideo c.ui) ∧
      promptEnabled (beforeAnswer c.ui (handleGenerateCode createVideo c.ui)) = false ∧
      generateEnabled (beforeAnswer c.ui (handleGenerateCode createVideo c.ui)) = false ∧
      createEnabled (beforeAnswer c.ui (handleGenerateCode createVideo c.ui)) = false ∧
      resetEnabled (beforeAnswer c.ui (handleGenerateCode createVideo c.ui)) = false) ∧
    (∀ validateCode createVideo, createEnabled c.ui = true →
      c.polls = [] ∧
      (c.step (.clickCreate validateCode createVideo)).polls =
        startedPolls (handleCreateVideo validateCode createVideo c.ui) ∧
      promptEnabled
        (beforeAnswer c.ui (handleCreateVideo validateCode createVideo c.ui)) = false ∧
      generateEnabled
        (beforeAnswer c.ui (handleCreateVideo validateCode createVideo c.ui)) = false ∧
      createEnabled
        (beforeAnswer c.ui (handleCreateVideo validateCode createVideo c.ui)) = false ∧
      resetEnabled
        (beforeAnswer c.ui (handleCreateVideo validateCode createVideo c.ui)) = false) := by
  have hinv : c.Inv := by
    rw [hc]
    exact Component.run_inv events _ Component.init_inv
  refine ⟨⟨hinv.1, hinv.2.1⟩, ?_, ?_, ?_⟩
  · intro he
    have hnil := hinv.polls_nil_of_error (error_of_resetEnabled he)
    have hload := hinv.2.2 (error_of_resetEnabled he)
    have hstep : c.step .clickReset = { c with ui := applyLog c.ui handleReset } := by
      rw [Component.step_clickReset, if_pos he]
    have hpolls : (c.step .clickReset).polls = [] := by rw [hstep]; exact hnil
    refine ⟨hnil, hpolls, by rw [hstep], ?_, ?_⟩
    · rw [hstep]
      show ({ prompt := [], generatedCode := [], videoStatus := lit "idle",
              currentVideo := none, loading := c.ui.loading, error := [],
              success := [] } : HomeState) = HomeState.init
      rw [hload]
      rfl
    · intro rounds hr
      rw [Component.run_rounds_of_no_polls rounds hr _ hpolls]
  · intro createVideo he
    have hnil := hinv.polls_nil_of_not_loading (loading_false_of_generateEnabled he)
    have hq := quiet_of_generating (beforeAnswer c.ui (handleGenerateCode createVideo c.ui))
      (by rw [beforeAnswer_generate createVideo c.ui he])
      (by rw [beforeAnswer_generate createVideo c.ui he])
    refine ⟨hnil, ?_, hq⟩
    rw [Component.step_clickGenerate, if_pos he]
    show c.polls ++ _ = _
    rw [hnil, List.nil_append]
  · intro validateCode createVideo he
    have hnil := hinv.polls_nil_of_not_loading (loading_false_of_createEnabled he)
    have hq := quiet_of_generating
      (beforeAnswer c.ui (handleCreateVideo validateCode createVideo c.ui))
      (by rw [beforeAnswer_create validateCode createVideo c.ui he])
      (by rw [beforeAnswer_create validateCode createVideo c.ui he])
    refine ⟨hnil, ?_, hq⟩
    rw [Component.step_clickCreate, if_pos he]
    show c.polls ++ _ = _
    rw [hnil, List.nil_append]

/-- C15 on the run: type `draw a circle`, click generate (the backend answers job
42), one round fetches `processing`, the next fetches `failed`. The reset button can
then fire, no poll is left, reset returns the state to its initial values, and a round
arriving afterwards changes nothing. -/
theorem C15_no_stale_round_witness :
    resetEnabled (Component.init.run
      [.typePrompt (lit "draw a circle"),
       .clickGenerate (fun _ => .ok { id := 42, status := lit "processing",
                                      manimCode := lit "code", error_message := none }),
       .pollRound 0 (.ok { id := 42, status := lit "processing", manimCode := lit "code",
                           error_message := none }) 0,
       .pollRound 0 (.ok { id := 42, status := lit "failed", manimCode := lit "code",
                           error_message := none }) 0]).ui = true ∧
    (Component.init.run
      [.typePrompt (lit "draw a circle"),
       .clickGenerate (fun _ => .ok { id := 42, status := lit "processing",
                                      manimCode := lit "code", error_message := none }),
       .pollRound 0 (.ok { id := 42, status := lit "processing", manimCode := lit "code",
                           error_message := none }) 0,
       .pollRound 0 (.ok { id := 42, status := lit "failed", manimCode := lit "code",
                           error_message := none }) 0]).polls = [] ∧
    (((Component.init.run
      [.typePrompt (lit "draw a circle"),
       .clickGenerate (fun _ => .ok { id := 42, status := lit "processing",
                                      manimCode := lit "code", error_message := none }),
       .pollRound 0 (.ok { id := 42, status := lit "processing", manimCode := lit "code",
                           error_message := none }) 0,
       .pollRound 0 (.ok { id := 42, status := lit "failed", manimCode := lit "code",
                           error_message := none }) 0]).step .clickReset).run
      [.pollRound 0 (.ok { id := 42, status := lit "completed", manimCode := lit "code",
                           error_message := none }) 0]).ui = HomeState.init := by
  have h := (C15_no_stale_round
    [.typePrompt (lit "draw a circle"),
     .clickGenerate (fun _ => .ok { id := 42, status := lit "processing",
                                    manimCode := lit "code", error_message := none }),
     .pollRound 0 (.ok { id := 42, status := lit "processing", manimCode := lit "code",
                         error_message := none }) 0,
     .pollRound 0 (.ok { id := 42, status := lit "failed", manimCode := lit "code",
                         error_message := none }) 0] _ rfl).2.1 (by decide)
  obtain ⟨h1, _, _, h4, h5⟩ := h
  refine ⟨by decide, h1, ?_⟩
  rw [h5 _ (by decide), h4]

end ManimOnline
